import Mathlib

/-!
The Canvas JNI binding (`core/jni/android_graphics_Canvas.cpp`)

The file under verification is a binding shim: every native method fetches the
`Canvas` object behind a handle and forwards to one of its methods, adding a
guard or a conversion here and there.

* Section 1 embeds the value types the binding passes around.
* Section 2 is the `Canvas` class as the binding sees it: the class is declared
  in `Canvas.h`, which is not part of the file, so its methods are taken as a
  parameter (`CanvasApi`).  Every binding function of section 3 is written over
  an arbitrary implementation of that interface.
* Section 4 is the canvas state machine (`CanvasContext`), modelled from the
  specification, and packaged as one implementation of `CanvasApi`.
* Section 5 is a concrete world for worked examples; sections 5b to 5d embed
  the native draw methods, over the drawing methods of `Canvas`
  (`CanvasDrawApi`), with a canvas that records the calls it is handed.

Scalars (`jfloat`, `SkScalar`) are exact rationals: every finite `float` is a
rational number, comparisons and copies are exact, and the arithmetic of the
transform operations is the exact arithmetic that the floating-point one
approximates.  The two scalars computed on the binding's own lines, the density
scale of drawBitmap and the sum `x + 0.5f` inside the rounding of getClipBounds,
are rounded to `float` explicitly (`roundToFloat`).  Machine integers
(`jint`, `int`) are mathematical integers; where a function does 32-bit
arithmetic that can wrap, the wrap is written out (`wrap32`).
-/

namespace android

/-! ## 1. Value types -/

/-- The scalar type of the graphics library (`SkScalar`, a `float`). -/
abbrev SkScalar := ℚ

/-- A 3x3 matrix in row-major order, with the entry names of `SkMatrix`. -/
structure SkMatrix where
  scaleX : SkScalar
  skewX : SkScalar
  transX : SkScalar
  skewY : SkScalar
  scaleY : SkScalar
  transY : SkScalar
  persp0 : SkScalar
  persp1 : SkScalar
  persp2 : SkScalar
deriving DecidableEq

namespace SkMatrix

/-- The identity matrix, `SkMatrix::I()`. -/
def I : SkMatrix := ⟨1, 0, 0, 0, 1, 0, 0, 0, 1⟩

/-- Matrix product `a * b`. -/
def mul (a b : SkMatrix) : SkMatrix :=
  { scaleX := a.scaleX * b.scaleX + a.skewX * b.skewY + a.transX * b.persp0
    skewX := a.scaleX * b.skewX + a.skewX * b.scaleY + a.transX * b.persp1
    transX := a.scaleX * b.transX + a.skewX * b.transY + a.transX * b.persp2
    skewY := a.skewY * b.scaleX + a.scaleY * b.skewY + a.transY * b.persp0
    scaleY := a.skewY * b.skewX + a.scaleY * b.scaleY + a.transY * b.persp1
    transY := a.skewY * b.transX + a.scaleY * b.transY + a.transY * b.persp2
    persp0 := a.persp0 * b.scaleX + a.persp1 * b.skewY + a.persp2 * b.persp0
    persp1 := a.persp0 * b.skewX + a.persp1 * b.scaleY + a.persp2 * b.persp1
    persp2 := a.persp0 * b.transX + a.persp1 * b.transY + a.persp2 * b.persp2 }

/-- The matrix of a translation by `(dx, dy)`. -/
def translation (dx dy : SkScalar) : SkMatrix := ⟨1, 0, dx, 0, 1, dy, 0, 0, 1⟩

/-- The matrix of a scaling by `(sx, sy)`. -/
def scaling (sx sy : SkScalar) : SkMatrix := ⟨sx, 0, 0, 0, sy, 0, 0, 0, 1⟩

/-- The matrix of a skew by `(sx, sy)`. -/
def skewing (sx sy : SkScalar) : SkMatrix := ⟨1, sx, 0, sy, 1, 0, 0, 0, 1⟩

end SkMatrix

/-- A rectangle with scalar edges (`SkRect`). -/
structure SkRect where
  fLeft : SkScalar
  fTop : SkScalar
  fRight : SkScalar
  fBottom : SkScalar
deriving DecidableEq

/-- A rectangle with integer edges (`SkIRect`). -/
structure SkIRect where
  fLeft : Int
  fTop : Int
  fRight : Int
  fBottom : Int
deriving DecidableEq

/-- Rounding of a rational to the nearest integer, ties to the even one (the
IEEE 754 default rounding). -/
def roundHalfEven (q : ℚ) : Int :=
  if q - ⌊q⌋ < 1 / 2 then ⌊q⌋
  else if 1 / 2 < q - ⌊q⌋ then ⌊q⌋ + 1
  else if ⌊q⌋ % 2 = 0 then ⌊q⌋ else ⌊q⌋ + 1

/-- The `float` (IEEE 754 binary32, 24-bit significand, round to nearest, ties
to even) nearest to a rational.  The exponent range is not modelled: the
function is exact for magnitudes between 2^-126 and 2^127, which covers the
32-bit integers and their quotients. -/
def roundToFloat (x : ℚ) : ℚ :=
  if x = 0 then 0
  else (roundHalfEven (x / 2 ^ (Int.log 2 |x| - 23)) : ℚ) * 2 ^ (Int.log 2 |x| - 23)

/-- The graphics library's `SkScalarRoundToInt`, `(int)floor(x + 0.5f)`: the
sum is a `float` sum, rounded to `float` like every float operation, and its
floor is converted to `int`.  For a `float` argument the sum is 0 or at least
2^-25 in magnitude, inside the exponent range in which `roundToFloat` is exact.
C++ defines the conversion only for a floor that fits a 32-bit `int`; the
definition keeps the mathematical floor outside that range, and every theorem
on a written edge assumes a range inside it. -/
def SkScalarRoundToInt (x : SkScalar) : Int := ⌊roundToFloat (x + 1 / 2)⌋

namespace SkRect

/-- `SkRect::setEmpty`: all four edges become 0. -/
def setEmpty (_ : SkRect) : SkRect := ⟨0, 0, 0, 0⟩

/-- `SkRect::isEmpty`: no interior. -/
def isEmpty (r : SkRect) : Bool := decide (r.fRight ≤ r.fLeft ∨ r.fBottom ≤ r.fTop)

/-- `SkRect::round`: each edge is converted to an integer with
`SkScalarRoundToInt`.  (The library's outward rounding is a different method,
`roundOut`, which the binding does not call.) -/
def round (r : SkRect) : SkIRect :=
  ⟨SkScalarRoundToInt r.fLeft, SkScalarRoundToInt r.fTop,
   SkScalarRoundToInt r.fRight, SkScalarRoundToInt r.fBottom⟩

end SkRect

/-- The fields of a paint (`SkPaint`) that the binding and the layer logic
touch: the alpha multiplier, the blend (transfer) mode and the filter level. -/
structure SkPaint where
  alpha : Int
  xfermode : Int
  filterLevel : Int
deriving DecidableEq

/-- The default blend mode of a paint (source-over). -/
def kSrcOver_Mode : Int := 3

/-- The Java exceptions the binding raises, one constructor per helper it
calls: `doThrowISE`, `doThrowIAE`, `doThrowAIOOBE` and the null check. -/
inductive Throwable where
  | IllegalStateException (msg : String)
  | IllegalArgumentException (msg : String)
  | ArrayIndexOutOfBoundsException
  | NullPointerException
deriving DecidableEq

/-- `doThrowISE(env, msg)` (a helper of `GraphicsJNI.h`): raises
`java.lang.IllegalStateException` with the message. -/
def doThrowISE (msg : String) : Throwable := Throwable.IllegalStateException msg

/-- `doThrowIAE(env, msg)` (a helper of `GraphicsJNI.h`): raises
`java.lang.IllegalArgumentException` with the message. -/
def doThrowIAE (msg : String) : Throwable := Throwable.IllegalArgumentException msg

/-- What a `void` native method leaves behind: the canvas and the exception
pending in the JNI environment, if the method raised one. -/
structure JniVoid (σ : Type) where
  canvas : σ
  pending : Option Throwable

/-! ## 2. The `Canvas` class, as the binding calls it -/

/-- The methods of `Canvas` (declared in `Canvas.h`, outside this file) that the
state-related native methods call, over the type `σ` of canvas objects.  Query
methods are `const` and return a value; mutating methods return the canvas
after the call.  Handles to paths and regions are passed through as the
`jlong` they are. -/
structure CanvasApi (σ : Type) where
  getSaveCount : σ → Int
  save : σ → Int → σ × Int
  saveLayer : σ → SkScalar → SkScalar → SkScalar → SkScalar → Option SkPaint → Int → σ × Int
  saveLayerAlpha : σ → SkScalar → SkScalar → SkScalar → SkScalar → Int → Int → σ × Int
  restore : σ → σ
  restoreToCount : σ → Int → σ
  getMatrix : σ → SkMatrix
  setMatrix : σ → SkMatrix → σ
  concat : σ → SkMatrix → σ
  rotate : σ → SkScalar → σ
  scale : σ → SkScalar → SkScalar → σ
  skew : σ → SkScalar → SkScalar → σ
  translate : σ → SkScalar → SkScalar → σ
  getClipBounds : σ → Bool × SkRect
  clipRect : σ → SkScalar → SkScalar → SkScalar → SkScalar → Int → σ × Bool
  clipPath : σ → Int → Int → σ × Bool
  clipRegion : σ → Int → Int → σ × Bool

/-! ## 3. The native methods (`namespace CanvasJNI`) -/

namespace CanvasJNI

variable {σ : Type}

/-- `CanvasJNI::getSaveCount`. -/
def getSaveCount (K : CanvasApi σ) (canvas : σ) : Int :=
  K.getSaveCount canvas

/-- `CanvasJNI::save`: the flags are cast and the canvas's result returned. -/
def save (K : CanvasApi σ) (canvas : σ) (flagsHandle : Int) : σ × Int :=
  K.save canvas flagsHandle

/-- `CanvasJNI::saveLayer`; a null paint handle is `none`. -/
def saveLayer (K : CanvasApi σ) (canvas : σ) (l t r b : SkScalar)
    (paint : Option SkPaint) (flagsHandle : Int) : σ × Int :=
  K.saveLayer canvas l t r b paint flagsHandle

/-- `CanvasJNI::saveLayerAlpha`. -/
def saveLayerAlpha (K : CanvasApi σ) (canvas : σ) (l t r b : SkScalar)
    (alpha : Int) (flagsHandle : Int) : σ × Int :=
  K.saveLayerAlpha canvas l t r b alpha flagsHandle

/-- `CanvasJNI::restore`: refuses to pop when the save count is at most 1. -/
def restore (K : CanvasApi σ) (canvas : σ) : JniVoid σ :=
  if K.getSaveCount canvas ≤ 1 then
    ⟨canvas, some (doThrowISE "Underflow in restore")⟩
  else
    ⟨K.restore canvas, none⟩

/-- `CanvasJNI::restoreToCount`: refuses a count outside `[1, save count]`. -/
def restoreToCount (K : CanvasApi σ) (canvas : σ) (restoreCount : Int) : JniVoid σ :=
  if restoreCount < 1 ∨ restoreCount > K.getSaveCount canvas then
    ⟨canvas, some (doThrowIAE "Underflow in restoreToCount")⟩
  else
    ⟨K.restoreToCount canvas restoreCount, none⟩

/-- `CanvasJNI::getCTM`: the value written into the matrix behind the handle. -/
def getCTM (K : CanvasApi σ) (canvas : σ) : SkMatrix :=
  K.getMatrix canvas

/-- `CanvasJNI::setMatrix`: a null handle (`none`) stands for the identity. -/
def setMatrix (K : CanvasApi σ) (canvas : σ) (matrix : Option SkMatrix) : σ :=
  K.setMatrix canvas (match matrix with
    | some m => m
    | none => SkMatrix.I)

/-- `CanvasJNI::concat`: the handle is dereferenced unconditionally, so it
must point to a matrix. -/
def concat (K : CanvasApi σ) (canvas : σ) (matrix : SkMatrix) : σ :=
  K.concat canvas matrix

/-- `CanvasJNI::rotate`. -/
def rotate (K : CanvasApi σ) (canvas : σ) (degrees : SkScalar) : σ :=
  K.rotate canvas degrees

/-- `CanvasJNI::scale`. -/
def scale (K : CanvasApi σ) (canvas : σ) (sx sy : SkScalar) : σ :=
  K.scale canvas sx sy

/-- `CanvasJNI::skew`. -/
def skew (K : CanvasApi σ) (canvas : σ) (sx sy : SkScalar) : σ :=
  K.skew canvas sx sy

/-- `CanvasJNI::translate`. -/
def translate (K : CanvasApi σ) (canvas : σ) (dx dy : SkScalar) : σ :=
  K.translate canvas dx dy

/-- `CanvasJNI::getClipBounds`: returns the rectangle written into the Java
`Rect` and the boolean result.  The local `r` holds whatever the canvas wrote;
it is emptied when the canvas reports failure, then rounded. -/
def getClipBounds (K : CanvasApi σ) (canvas : σ) : SkIRect × Bool :=
  let out := K.getClipBounds canvas
  let result := out.1
  let r := if !result then out.2.setEmpty else out.2
  (r.round, if result then true else false)

/-- `CanvasJNI::clipRect`: `emptyClip ? JNI_FALSE : JNI_TRUE`. -/
def clipRect (K : CanvasApi σ) (canvas : σ) (l t r b : SkScalar) (opHandle : Int) : σ × Bool :=
  let out := K.clipRect canvas l t r b opHandle
  let emptyClip := out.2
  (out.1, if emptyClip then false else true)

/-- `CanvasJNI::clipPath`. -/
def clipPath (K : CanvasApi σ) (canvas : σ) (pathHandle : Int) (opHandle : Int) : σ × Bool :=
  let out := K.clipPath canvas pathHandle opHandle
  let emptyClip := out.2
  (out.1, if emptyClip then false else true)

/-- `CanvasJNI::clipRegion`. -/
def clipRegion (K : CanvasApi σ) (canvas : σ) (deviceRgnHandle : Int) (opHandle : Int) :
    σ × Bool :=
  let out := K.clipRegion canvas deviceRgnHandle opHandle
  let emptyClip := out.2
  (out.1, if emptyClip then false else true)

end CanvasJNI

/-- One call of a state-related native method, with its arguments. -/
inductive NativeCall where
  | save (flags : Int)
  | saveLayer (l t r b : SkScalar) (paint : Option SkPaint) (flags : Int)
  | saveLayerAlpha (l t r b : SkScalar) (alpha : Int) (flags : Int)
  | restore
  | restoreToCount (restoreCount : Int)
  | setMatrix (matrix : Option SkMatrix)
  | concat (matrix : SkMatrix)
  | rotate (degrees : SkScalar)
  | scale (sx sy : SkScalar)
  | skew (sx sy : SkScalar)
  | translate (dx dy : SkScalar)
  | clipRect (l t r b : SkScalar) (op : Int)
  | clipPath (pathHandle : Int) (op : Int)
  | clipRegion (deviceRgnHandle : Int) (op : Int)

/-- The flags of a call of the save family, `none` for any other call. -/
def NativeCall.saveFlags : NativeCall → Option Int
  | .save flags => some flags
  | .saveLayer _ _ _ _ _ flags => some flags
  | .saveLayerAlpha _ _ _ _ _ flags => some flags
  | _ => none

namespace CanvasJNI

variable {σ : Type}

/-- The canvas after one native call (whether it raised or not). -/
def invoke (K : CanvasApi σ) (canvas : σ) : NativeCall → σ
  | .save flags => (save K canvas flags).1
  | .saveLayer l t r b paint flags => (saveLayer K canvas l t r b paint flags).1
  | .saveLayerAlpha l t r b alpha flags => (saveLayerAlpha K canvas l t r b alpha flags).1
  | .restore => (restore K canvas).canvas
  | .restoreToCount n => (restoreToCount K canvas n).canvas
  | .setMatrix m => setMatrix K canvas m
  | .concat m => concat K canvas m
  | .rotate d => rotate K canvas d
  | .scale sx sy => scale K canvas sx sy
  | .skew sx sy => skew K canvas sx sy
  | .translate dx dy => translate K canvas dx dy
  | .clipRect l t r b op => (clipRect K canvas l t r b op).1
  | .clipPath h op => (clipPath K canvas h op).1
  | .clipRegion h op => (clipRegion K canvas h op).1

/-- The canvas after a sequence of native calls, issued in order. -/
def invokeAll (K : CanvasApi σ) : List NativeCall → σ → σ
  | [], canvas => canvas
  | call :: rest, canvas => invokeAll K rest (invoke K canvas call)

/-- Whether the save count stays above `n` after each call of the sequence. -/
def staysAbove (K : CanvasApi σ) (n : Int) : List NativeCall → σ → Bool
  | [], _ => true
  | call :: rest, canvas =>
    decide (n < K.getSaveCount (invoke K canvas call)) &&
      staysAbove K n rest (invoke K canvas call)

end CanvasJNI

/-! ## 4. The canvas state machine, modelled from the specification

`Canvas.h` and the implementation behind it are not part of the file; what the
methods of `Canvas` do is taken from the specification's description of the
state stack.  The specification describes each operation together with the
guard the binding puts in front of it; the guards are in section 3, the
operations behind them are here. -/

/-- Modelled from the spec: the `shape` argument of
`clipRect/clipPath/clipRegion(shape, op)`, as the binding passes it: four
edges, a path handle or a device-region handle. -/
inductive ClipShape where
  | rect (l t r b : SkScalar)
  | path (handle : Int)
  | region (handle : Int)
deriving DecidableEq

/-- Modelled from the spec: the external collaborators of the state stack,
over the type of clip regions: region arithmetic and measurement, the matrix
of a rotation, and the allocator of offscreen layer buffers (`none` when the
allocation fails).  The specification names them without defining them, so
they are parameters of the state machine. -/
structure Graphics (Region : Type) where
  unboundedClip : Region
  isEmpty : Region → Bool
  getBounds : Region → SkRect
  combine : Region → SkMatrix → ClipShape → Int → Region
  rotation : SkScalar → SkMatrix
  allocateLayer : SkRect → Option Nat

/-- Modelled from the spec: a `DrawState` of the data model (section 3 of the
specification): transform, clip, optional layer target and layer paint. -/
structure DrawState (Region : Type) where
  transform : SkMatrix
  clip : Region
  layerTarget : Option Nat
  layerPaint : Option SkPaint

/-- Modelled from the spec: the record of one layer composited into the
buffer below it when its state was popped, with the paint stored for it. -/
structure Composite where
  source : Nat
  target : Nat
  paint : Option SkPaint
deriving DecidableEq

/-- Modelled from the spec: the `CanvasContext` of the data model.  The stack
is listed from the top (current state, the head) down to the base state (the
last element); `composited` records, oldest first, the layers that restores
have blended into their parent buffer. -/
structure CanvasContext (Region : Type) where
  stateStack : List (DrawState Region)
  targetSurface : Nat
  composited : List Composite

/-- Modelled from the spec: the "matrix" bit of the save flags (bit 0, the
library's `kMatrix_SaveFlag`). -/
def kMatrix_SaveFlag : Int := 1

/-- Modelled from the spec: the "clip" bit of the save flags (bit 1, the
library's `kClip_SaveFlag`). -/
def kClip_SaveFlag : Int := 2

/-- Modelled from the spec: both bits, the `SkCanvas::kMatrixClip_SaveFlag`
the source names. -/
def kMatrixClip_SaveFlag : Int := 3

/-- Modelled from the spec: whether a flag bit is present in the flag word
(`bit` is a power of two; two's complement, so also for negative words). -/
def hasFlag (flags bit : Int) : Bool := decide ((flags / bit) % 2 = 1)

namespace CanvasContext

variable {Region : Type}

/-- Modelled from the spec: the canvas created when a surface is attached: a
single base state with the identity transform and the given clip. -/
def attach (surface : Nat) (clip : Region) : CanvasContext Region :=
  ⟨[⟨SkMatrix.I, clip, none, none⟩], surface, []⟩

/-- Modelled from the spec: "Save count = stateStack length". -/
def getSaveCount (c : CanvasContext Region) : Int := c.stateStack.length

/-- Modelled from the spec: the "stack-invariant default (identity transform
/ unbounded clip)". -/
def defaultState (G : Graphics Region) : DrawState Region :=
  ⟨SkMatrix.I, G.unboundedClip, none, none⟩

/-- Modelled from the spec: the current (top) state; the default state stands
in on an empty stack, which the invariant of the data model excludes. -/
def top (G : Graphics Region) (c : CanvasContext Region) : DrawState Region :=
  c.stateStack.headD (defaultState G)

/-- Modelled from the spec: `currentTransform()`, the top state's transform. -/
def currentTransform (G : Graphics Region) (c : CanvasContext Region) : SkMatrix :=
  (top G c).transform

/-- Modelled from the spec: `currentClip()`, the top state's clip. -/
def currentClip (G : Graphics Region) (c : CanvasContext Region) : Region :=
  (top G c).clip

/-- Modelled from the spec: `currentTarget()`, the buffer drawn into: the
layer target of the topmost state that owns one, else the target surface. -/
def currentTarget (c : CanvasContext Region) : Nat :=
  ((c.stateStack.filterMap (fun s => s.layerTarget)).head?).getD c.targetSurface

/-- Modelled from the spec: operations "mutate or read only the current top
DrawState": applies `f` to the top state and leaves the rest alone. -/
def modifyTop (f : DrawState Region → DrawState Region) (c : CanvasContext Region) :
    CanvasContext Region :=
  match c.stateStack with
  | [] => c
  | s :: rest => { c with stateStack := f s :: rest }

/-- Modelled from the spec: the state a save pushes: a copy of the top in
which a sub-state whose flag bit is absent reverts to the stack-invariant
default (identity transform, unbounded clip). -/
def pushed (G : Graphics Region) (s : DrawState Region) (flags : Int)
    (layer : Option Nat) (paint : Option SkPaint) : DrawState Region :=
  { transform := if hasFlag flags kMatrix_SaveFlag then s.transform else SkMatrix.I
    clip := if hasFlag flags kClip_SaveFlag then s.clip else G.unboundedClip
    layerTarget := layer
    layerPaint := paint }

/-- Modelled from the spec: `save(flags)`: "Pushes a copy of the current top
DrawState onto the stack ... Returns the new save count (stack depth after
push)". -/
def save (G : Graphics Region) (c : CanvasContext Region) (flags : Int) :
    CanvasContext Region × Int :=
  let c1 := { c with stateStack := pushed G (top G c) flags none none :: c.stateStack }
  (c1, getSaveCount c1)

/-- Modelled from the spec: `saveLayer(bounds, paint, flags)`: like save, with
an offscreen target sized from the bounds, or from the current clip when the
bounds are empty.  When the buffer cannot be allocated the save is not
performed and the stack is unchanged; the specification leaves the returned
number open in that case, the model returns the unchanged save count. -/
def saveLayer (G : Graphics Region) (c : CanvasContext Region) (l t r b : SkScalar)
    (paint : Option SkPaint) (flags : Int) : CanvasContext Region × Int :=
  let bounds : SkRect := ⟨l, t, r, b⟩
  let size := if bounds.isEmpty then G.getBounds (currentClip G c) else bounds
  match G.allocateLayer size with
  | none => (c, getSaveCount c)
  | some buffer =>
    let c1 := { c with stateStack := pushed G (top G c) flags (some buffer) paint :: c.stateStack }
    (c1, getSaveCount c1)

/-- Modelled from the spec: `saveLayerAlpha`: "Equivalent to saveLayer with a
paint carrying only a constant alpha multiplier and default blend mode". -/
def saveLayerAlpha (G : Graphics Region) (c : CanvasContext Region) (l t r b : SkScalar)
    (alpha : Int) (flags : Int) : CanvasContext Region × Int :=
  saveLayer G c l t r b (some ⟨alpha, kSrcOver_Mode, 0⟩) flags

/-- Modelled from the spec: the pop behind `restore()`: "pops the top
DrawState; if it owned a layer target, composites it into the new top's target
per the stored paint, then discards the buffer".  The underflow check in front
of it is the binding's. -/
def restore (c : CanvasContext Region) : CanvasContext Region :=
  match c.stateStack with
  | [] => c
  | s :: rest =>
    let below : CanvasContext Region := { c with stateStack := rest }
    match s.layerTarget with
    | none => below
    | some buffer =>
      { below with composited := below.composited ++ [⟨buffer, currentTarget below, s.layerPaint⟩] }

/-- Modelled from the spec: the pops behind `restoreToCount(n)`: "pops states
down to depth n, compositing any popped layers in top-to-bottom order".  The
range check in front of it is the binding's. -/
def restoreToCount (c : CanvasContext Region) (n : Int) : CanvasContext Region :=
  restore^[(getSaveCount c - n).toNat] c

/-- Modelled from the spec: `getMatrix()` reads the current top's transform. -/
def getMatrix (G : Graphics Region) (c : CanvasContext Region) : SkMatrix :=
  currentTransform G c

/-- Modelled from the spec: `setMatrix(m)` "replaces it outright". -/
def setMatrix (c : CanvasContext Region) (m : SkMatrix) : CanvasContext Region :=
  modifyTop (fun s => { s with transform := m }) c

/-- Modelled from the spec: `concat(m)`: transform-mutating operations
"right-multiply ... the existing transform by the new operation's matrix". -/
def concat (c : CanvasContext Region) (m : SkMatrix) : CanvasContext Region :=
  modifyTop (fun s => { s with transform := s.transform.mul m }) c

/-- Modelled from the spec: `rotate`, a concat of the rotation's matrix. -/
def rotate (G : Graphics Region) (c : CanvasContext Region) (degrees : SkScalar) :
    CanvasContext Region :=
  concat c (G.rotation degrees)

/-- Modelled from the spec: `scale`, a concat of the scaling's matrix. -/
def scale (c : CanvasContext Region) (sx sy : SkScalar) : CanvasContext Region :=
  concat c (SkMatrix.scaling sx sy)

/-- Modelled from the spec: `skew`, a concat of the skew's matrix. -/
def skew (c : CanvasContext Region) (sx sy : SkScalar) : CanvasContext Region :=
  concat c (SkMatrix.skewing sx sy)

/-- Modelled from the spec: `translate`, a concat of the translation's matrix. -/
def translate (c : CanvasContext Region) (dx dy : SkScalar) : CanvasContext Region :=
  concat c (SkMatrix.translation dx dy)

/-- Modelled from the spec: `clipRect/clipPath/clipRegion(shape, op) -> bool
(isEmpty)`: combines "the current top's clip with shape transformed by the
current top's transform. Returns whether the resulting clip is empty".  (That
a clip never grows past the extent its ancestors impose is a property of the
region arithmetic, which is a parameter here.) -/
def clip (G : Graphics Region) (c : CanvasContext Region) (shape : ClipShape) (op : Int) :
    CanvasContext Region × Bool :=
  let c1 := modifyTop (fun s => { s with clip := G.combine s.clip s.transform shape op }) c
  (c1, G.isEmpty (currentClip G c1))

/-- Modelled from the spec: `getClipBounds() -> rectangle, bool`: the
enclosing rectangle of the current top's clip "and whether the clip is
non-empty". -/
def getClipBounds (G : Graphics Region) (c : CanvasContext Region) : Bool × SkRect :=
  (!G.isEmpty (currentClip G c), G.getBounds (currentClip G c))

/-- Modelled from the spec: the state machine as an implementation of the
`Canvas` methods the binding calls. -/
def api (G : Graphics Region) : CanvasApi (CanvasContext Region) where
  getSaveCount := getSaveCount
  save := save G
  saveLayer := saveLayer G
  saveLayerAlpha := saveLayerAlpha G
  restore := restore
  restoreToCount := restoreToCount
  getMatrix := getMatrix G
  setMatrix := setMatrix
  concat := concat
  rotate := rotate G
  scale := scale
  skew := skew
  translate := translate
  getClipBounds := getClipBounds G
  clipRect := fun c l t r b op => clip G c (ClipShape.rect l t r b) op
  clipPath := fun c h op => clip G c (ClipShape.path h) op
  clipRegion := fun c h op => clip G c (ClipShape.region h) op

end CanvasContext

/-- The ways one native call can change the stack of the state machine: push
one state, leave it alone, pop down to a non-empty rest, or change the top
state in place. -/
def StackStep {Region : Type} (st st1 : List (DrawState Region)) : Prop :=
  (∃ s, st1 = s :: st) ∨ st1 = st ∨ (∃ k, k < st.length ∧ st1 = st.drop k) ∨
    (∃ s t r, st = s :: r ∧ st1 = t :: r)

/-! ## 5. A concrete world for worked examples

One instance of the collaborators (`Graphics`): regions are finite unions of
rectangles with rational edges, with exact set operations.  The theorems of
section 7 hold for every instance; this one supplies the concrete canvases the
worked examples run on. -/

namespace RectRegion

/-- The region operations of the graphics library (`SkRegion::Op`). -/
def kDifference_Op : Int := 0

/-- Intersection. -/
def kIntersect_Op : Int := 1

/-- Union. -/
def kUnion_Op : Int := 2

/-- Symmetric difference. -/
def kXOR_Op : Int := 3

/-- The shape minus the clip. -/
def kReverseDifference_Op : Int := 4

/-- The shape replaces the clip. -/
def kReplace_Op : Int := 5

/-- The rectangle common to two rectangles (empty when they are disjoint). -/
def intersectRect (a b : SkRect) : SkRect :=
  ⟨max a.fLeft b.fLeft, max a.fTop b.fTop, min a.fRight b.fRight, min a.fBottom b.fBottom⟩

/-- The part of `a` outside `b`: the strips above, below, left and right. -/
def subtractRect (a b : SkRect) : List SkRect :=
  [⟨a.fLeft, a.fTop, a.fRight, min a.fBottom b.fTop⟩,
   ⟨a.fLeft, max a.fTop b.fBottom, a.fRight, a.fBottom⟩,
   ⟨a.fLeft, max a.fTop b.fTop, min a.fRight b.fLeft, min a.fBottom b.fBottom⟩,
   ⟨max a.fLeft b.fRight, max a.fTop b.fTop, a.fRight, min a.fBottom b.fBottom⟩]

/-- Drops the rectangles without interior. -/
def normalize (rs : List SkRect) : List SkRect := rs.filter (fun r => !r.isEmpty)

/-- Intersection of two unions of rectangles. -/
def inter (as bs : List SkRect) : List SkRect :=
  normalize (as.flatMap (fun a => bs.map (fun b => intersectRect a b)))

/-- Difference of two unions of rectangles. -/
def diff (as bs : List SkRect) : List SkRect :=
  bs.foldl (fun acc b => normalize (acc.flatMap (fun a => subtractRect a b))) (normalize as)

/-- The two regions combined by the operation; an unknown operation leaves
the first unchanged. -/
def combineOp (as bs : List SkRect) (op : Int) : List SkRect :=
  if op = kDifference_Op then diff as bs
  else if op = kIntersect_Op then inter as bs
  else if op = kUnion_Op then normalize (as ++ bs)
  else if op = kXOR_Op then diff as bs ++ diff bs as
  else if op = kReverseDifference_Op then diff bs as
  else if op = kReplace_Op then normalize bs
  else as

/-- The bounding box of the image of a rectangle under the affine part of a
matrix. -/
def mapRect (m : SkMatrix) (r : SkRect) : SkRect :=
  let x1 := m.scaleX * r.fLeft + m.skewX * r.fTop + m.transX
  let x2 := m.scaleX * r.fRight + m.skewX * r.fTop + m.transX
  let x3 := m.scaleX * r.fLeft + m.skewX * r.fBottom + m.transX
  let x4 := m.scaleX * r.fRight + m.skewX * r.fBottom + m.transX
  let y1 := m.skewY * r.fLeft + m.scaleY * r.fTop + m.transY
  let y2 := m.skewY * r.fRight + m.scaleY * r.fTop + m.transY
  let y3 := m.skewY * r.fLeft + m.scaleY * r.fBottom + m.transY
  let y4 := m.skewY * r.fRight + m.scaleY * r.fBottom + m.transY
  ⟨min (min x1 x2) (min x3 x4), min (min y1 y2) (min y3 y4),
   max (max x1 x2) (max x3 x4), max (max y1 y2) (max y3 y4)⟩

/-- The smallest rectangle enclosing both (of non-empty rectangles). -/
def joinRect (a b : SkRect) : SkRect :=
  ⟨min a.fLeft b.fLeft, min a.fTop b.fTop, max a.fRight b.fRight, max a.fBottom b.fBottom⟩

/-- The smallest rectangle enclosing the region; all zero for an empty one. -/
def bounds (rs : List SkRect) : SkRect :=
  match normalize rs with
  | [] => ⟨0, 0, 0, 0⟩
  | r :: rest => rest.foldl joinRect r

/-- The matrix of a rotation by a whole number of quarter turns; the angles
that are not a multiple of 90 degrees have no rational matrix and this world
leaves the transform alone for them. -/
def quarterTurn (degrees : SkScalar) : SkMatrix :=
  if degrees = 90 then ⟨0, -1, 0, 1, 0, 0, 0, 0, 1⟩
  else if degrees = 180 then ⟨-1, 0, 0, 0, -1, 0, 0, 0, 1⟩
  else if degrees = 270 then ⟨0, 1, 0, -1, 0, 0, 0, 0, 1⟩
  else SkMatrix.I

/-- The concrete world: paths and device regions are looked up by handle in
the two tables (a path is given in local coordinates and mapped through the
transform, a device region is not); a layer buffer can be allocated when its
area is at most `budget`. -/
def graphics (paths regions : Int → List SkRect) (budget : SkScalar) : Graphics (List SkRect) where
  unboundedClip := [⟨-1073741824, -1073741824, 1073741824, 1073741824⟩]
  isEmpty := fun rs => (normalize rs).isEmpty
  getBounds := bounds
  combine := fun clip m shape op =>
    match shape with
    | ClipShape.rect l t r b => combineOp clip [mapRect m ⟨l, t, r, b⟩] op
    | ClipShape.path h => combineOp clip ((paths h).map (mapRect m)) op
    | ClipShape.region h => combineOp clip (regions h) op
  rotation := quarterTurn
  allocateLayer := fun r =>
    if (r.fRight - r.fLeft) * (r.fBottom - r.fTop) ≤ budget then some 1 else none

/-- A world without paths or device regions and room for layers up to a
million square units. -/
def world : Graphics (List SkRect) := graphics (fun _ => []) (fun _ => []) 1000000

/-- A canvas freshly attached to a 100 x 100 surface. -/
def fresh : CanvasContext (List SkRect) := CanvasContext.attach 0 [⟨0, 0, 100, 100⟩]

/-- The fresh canvas after a first save that keeps matrix and clip. -/
def afterFirstSave : CanvasContext (List SkRect) :=
  (CanvasJNI.save (CanvasContext.api world) fresh kMatrixClip_SaveFlag).1

/-- Then translated by (10, 10). -/
def afterTranslate : CanvasContext (List SkRect) :=
  CanvasJNI.translate (CanvasContext.api world) afterFirstSave 10 10

/-- Then saved a second time, with the clip flag only. -/
def afterSecondSave : CanvasContext (List SkRect) :=
  (CanvasJNI.save (CanvasContext.api world) afterTranslate kClip_SaveFlag).1

/-- The fresh canvas clipped to a rectangle with fractional edges. -/
def fractionalClip : CanvasContext (List SkRect) :=
  (CanvasJNI.clipRect (CanvasContext.api world) fresh (3 / 4) (3 / 4) (41 / 4) (41 / 4)
    kIntersect_Op).1

/-- The fresh canvas clipped to a rectangle that lies outside its clip. -/
def emptiedClip : CanvasContext (List SkRect) :=
  (CanvasJNI.clipRect (CanvasContext.api world) fresh 200 200 300 300 kIntersect_Op).1

/-- Calls issued inside a save bracket: a translation, a nested save that
keeps the clip only, a scaling, the matching restore and a clip. -/
def bracketCalls : List NativeCall :=
  [NativeCall.translate 10 10, NativeCall.save kClip_SaveFlag, NativeCall.scale 2 2,
   NativeCall.restore, NativeCall.clipRect 20 20 30 30 kIntersect_Op]

/-- A run of stack calls, several of which fail: restores at the base state,
restoreToCount with counts out of range, and a layer too large to allocate. -/
def stressCalls : List NativeCall :=
  [NativeCall.restore, NativeCall.restoreToCount 0, NativeCall.save 0, NativeCall.restore,
   NativeCall.restore, NativeCall.saveLayer 0 0 5000 5000 none kMatrixClip_SaveFlag,
   NativeCall.saveLayerAlpha 0 0 50 50 128 kMatrixClip_SaveFlag, NativeCall.restoreToCount 7,
   NativeCall.restoreToCount (-1), NativeCall.restoreToCount 1, NativeCall.restore]

end RectRegion

/-! ## 5b. Drawing: values handed to the canvas

The drawing methods of `Canvas` receive pointers into pinned Java arrays.  A
pointer is embedded as the array it points into and the offset added to the
array's first element, so that where a method starts reading is a value the
theorems can speak about. -/

/-- The value of a 32-bit `int` holding the mathematical integer `x`: the
two's-complement wrap the hardware performs on overflow. -/
def wrap32 (x : Int) : Int := (x + 2147483648) % 4294967296 - 2147483648

/-- A pointer into a pinned Java array: the array (`none` for a null array
reference, whose element pointer is null) and the offset, counted in
elements, from its first element. -/
structure ArrayPtr (α : Type) where
  array : Option (List α)
  offset : Int
deriving DecidableEq

/-- A `const char*` into the 16-bit code units (`jchar`) of a char array or a
string: the code units and the offset from the first one, counted in BYTES,
as arithmetic on a `const char*` counts. -/
structure TextPtr where
  units : List Nat
  byteOffset : Int
deriving DecidableEq

/-- The 16-bit code units a reader finds at a text pointer when it reads
`count` of them (drawTextOnPath in the source reads the text through a
`uint16_t*`): defined when the pointer is aligned on a code unit inside or at
the end of the array, in which case they are the array's units from unit
`byteOffset / 2` on.  A pointer at an odd byte straddles two code units and
what is read there depends on the byte order; it is left undefined. -/
def TextPtr.codeUnits (p : TextPtr) (count : Int) : Option (List Nat) :=
  if 0 ≤ p.byteOffset ∧ p.byteOffset % 2 = 0 ∧ p.byteOffset / 2 ≤ p.units.length then
    some ((p.units.drop (p.byteOffset / 2).toNat).take count.toNat)
  else none

/-- `SkPaint::kLow_FilterLevel` (bilinear filtering), the second value of the
library's filter-level enumeration. -/
def kLow_FilterLevel : Int := 1

/-- A default-constructed `SkPaint` (`SkPaint filteredPaint;`): opaque,
source-over, no filtering. -/
def SkPaint.defaultPaint : SkPaint := ⟨255, kSrcOver_Mode, 0⟩

/-- `SkPaint::setFilterLevel`. -/
def SkPaint.setFilterLevel (p : SkPaint) (level : Int) : SkPaint :=
  { p with filterLevel := level }

/-- `canvasDensity / (float)bitmapDensity` of drawBitmap: both integers are
converted to `float` and the quotient is a `float`. -/
def densityScale (canvasDensity bitmapDensity : Int) : SkScalar :=
  roundToFloat (roundToFloat canvasDensity / roundToFloat bitmapDensity)

/-- `kBidi_Force_LTR` of the text-layout library. -/
def kBidi_Force_LTR : Int := 4

/-- `kBidi_Force_RTL` of the text-layout library. -/
def kBidi_Force_RTL : Int := 5

/-- `doThrowAIOOBE(env)` (a helper of `GraphicsJNI.h`): raises
`java.lang.ArrayIndexOutOfBoundsException`. -/
def doThrowAIOOBE : Throwable := Throwable.ArrayIndexOutOfBoundsException

/-- `doThrowNPE(env)`, which the macro `NPE_CHECK_RETURN_VOID` calls for a null
reference: raises `java.lang.NullPointerException`. -/
def doThrowNPE : Throwable := Throwable.NullPointerException

/-- The drawing methods of `Canvas` the native draw methods call, next to the
state methods of `CanvasApi`.  A bitmap, a typeface and a drawing mode are the
handles and numbers the binding passes; the two rectangles of the
rectangle-to-rectangle bitmap draw are passed as four scalars each and
gathered in an `SkRect` here. -/
structure CanvasDrawApi (σ : Type) extends CanvasApi σ where
  drawPoints : σ → ArrayPtr SkScalar → Int → SkPaint → σ
  drawLines : σ → ArrayPtr SkScalar → Int → SkPaint → σ
  drawVertices : σ → Int → Int → ArrayPtr SkScalar → ArrayPtr SkScalar →
    Option (ArrayPtr Int) → Option (ArrayPtr Int) → Int → SkPaint → σ
  drawBitmap : σ → Int → SkScalar → SkScalar → Option SkPaint → σ
  drawBitmapRect : σ → Int → SkRect → SkRect → Option SkPaint → σ
  drawText : σ → TextPtr → Int → Int → Int → SkScalar → SkScalar → Int → SkPaint → Int → σ

/-! ## 5c. The native draw methods (`namespace CanvasJNI`, continued) -/

namespace CanvasJNI

variable {σ : Type}

/-- `CanvasJNI::drawPoints`.  The guard is `(offset | count) < 0 || offset +
count > length` on 32-bit `int`s: the bitwise or is negative when either
operand is, and the sum is the 32-bit sum. -/
def drawPoints (K : CanvasDrawApi σ) (canvas : σ) (jptsArray : Option (List SkScalar))
    (offset count : Int) (paint : SkPaint) : JniVoid σ :=
  match jptsArray with
  | none => ⟨canvas, some doThrowNPE⟩
  | some floats =>
    let length : Int := floats.length
    if Int.lor offset count < 0 ∨ wrap32 (offset + count) > length then
      ⟨canvas, some doThrowAIOOBE⟩
    else
      ⟨K.drawPoints canvas ⟨some floats, offset⟩ count paint, none⟩

/-- `CanvasJNI::drawLines`, with the same guard as drawPoints. -/
def drawLines (K : CanvasDrawApi σ) (canvas : σ) (jptsArray : Option (List SkScalar))
    (offset count : Int) (paint : SkPaint) : JniVoid σ :=
  match jptsArray with
  | none => ⟨canvas, some doThrowNPE⟩
  | some floats =>
    let length : Int := floats.length
    if Int.lor offset count < 0 ∨ wrap32 (offset + count) > length then
      ⟨canvas, some doThrowAIOOBE⟩
    else
      ⟨K.drawLines canvas ⟨some floats, offset⟩ count paint, none⟩

/-- `CanvasJNI::drawVertices`: the call made once the four array wrappers are
built.  (The wrappers are declared in `GraphicsJNI.h`, outside the file; each
is given its array and a minimum length, `texIndex + vertexCount` for the
texture coordinates, and is not modelled beyond the pointer it yields.)
`texs` is `texA.ptr() + vertIndex`, as in the source. -/
def drawVertices (K : CanvasDrawApi σ) (canvas : σ) (modeHandle vertexCount : Int)
    (jverts : Option (List SkScalar)) (vertIndex : Int)
    (jtexs : Option (List SkScalar)) (texIndex : Int)
    (jcolors : Option (List Int)) (colorIndex : Int)
    (jindices : Option (List Int)) (indexIndex : Int)
    (indexCount : Int) (paint : SkPaint) : σ :=
  let verts : ArrayPtr SkScalar := ⟨jverts, vertIndex⟩
  let texs : ArrayPtr SkScalar := ⟨jtexs, vertIndex⟩
  let colors : Option (ArrayPtr Int) :=
    match jcolors with
    | none => none
    | some a => some ⟨some a, colorIndex⟩
  let indices : Option (ArrayPtr Int) :=
    match jindices with
    | none => none
    | some a => some ⟨some a, indexIndex⟩
  K.drawVertices canvas modeHandle vertexCount verts texs colors indices indexCount paint

/-- The paint the bitmap draws build when they filter: a copy of the caller's
paint, or a default paint for a null handle, with the filter level set low. -/
def filteredPaint (paint : Option SkPaint) : SkPaint :=
  (match paint with
    | some p => p
    | none => SkPaint.defaultPaint).setFilterLevel kLow_FilterLevel

/-- `CanvasJNI::drawBitmap`. -/
def drawBitmap (K : CanvasDrawApi σ) (canvas : σ) (bitmapHandle : Int) (left top : SkScalar)
    (paint : Option SkPaint) (canvasDensity screenDensity bitmapDensity : Int) : σ :=
  if canvasDensity = bitmapDensity ∨ canvasDensity = 0 ∨ bitmapDensity = 0 then
    if screenDensity ≠ 0 ∧ screenDensity ≠ bitmapDensity then
      K.drawBitmap canvas bitmapHandle left top (some (filteredPaint paint))
    else
      K.drawBitmap canvas bitmapHandle left top paint
  else
    let c1 := (K.save canvas kMatrixClip_SaveFlag).1
    let scale := densityScale canvasDensity bitmapDensity
    let c2 := K.translate c1 left top
    let c3 := K.scale c2 scale scale
    let c4 := K.drawBitmap c3 bitmapHandle 0 0 (some (filteredPaint paint))
    K.restore c4

/-- `CanvasJNI::drawBitmapRect`. -/
def drawBitmapRect (K : CanvasDrawApi σ) (canvas : σ) (bitmapHandle : Int)
    (srcLeft srcTop srcRight srcBottom dstLeft dstTop dstRight dstBottom : SkScalar)
    (paint : Option SkPaint) (screenDensity bitmapDensity : Int) : σ :=
  if screenDensity ≠ 0 ∧ screenDensity ≠ bitmapDensity then
    K.drawBitmapRect canvas bitmapHandle ⟨srcLeft, srcTop, srcRight, srcBottom⟩
      ⟨dstLeft, dstTop, dstRight, dstBottom⟩ (some (filteredPaint paint))
  else
    K.drawBitmapRect canvas bitmapHandle ⟨srcLeft, srcTop, srcRight, srcBottom⟩
      ⟨dstLeft, dstTop, dstRight, dstBottom⟩ paint

/-- `CanvasJNI::drawTextChars`: `textArray` is the `jchar*` of the array cast to
`const char*`, plus `index`. -/
def drawTextChars (K : CanvasDrawApi σ) (canvas : σ) (text : List Nat) (index count : Int)
    (x y : SkScalar) (bidiFlags : Int) (paint : SkPaint) (typeface : Int) : σ :=
  let textArray : TextPtr := ⟨text, index⟩
  K.drawText canvas textArray 0 count count x y bidiFlags paint typeface

/-- `CanvasJNI::drawTextString`: `count` is the 32-bit `end - start`. -/
def drawTextString (K : CanvasDrawApi σ) (canvas : σ) (text : List Nat) (start end_ : Int)
    (x y : SkScalar) (bidiFlags : Int) (paint : SkPaint) (typeface : Int) : σ :=
  let count := wrap32 (end_ - start)
  let textArray : TextPtr := ⟨text, start⟩
  K.drawText canvas textArray 0 count count x y bidiFlags paint typeface

/-- `CanvasJNI::drawTextRunChars`. -/
def drawTextRunChars (K : CanvasDrawApi σ) (canvas : σ) (text : List Nat)
    (index count contextIndex contextCount : Int) (x y : SkScalar) (isRtl : Bool)
    (paint : SkPaint) (typeface : Int) : σ :=
  let bidiFlags := if isRtl then kBidi_Force_RTL else kBidi_Force_LTR
  let textArray : TextPtr := ⟨text, contextIndex⟩
  K.drawText canvas textArray (wrap32 (index - contextIndex)) count contextCount x y bidiFlags
    paint typeface

/-- `CanvasJNI::drawTextRunString`. -/
def drawTextRunString (K : CanvasDrawApi σ) (canvas : σ) (text : List Nat)
    (start end_ contextStart contextEnd : Int) (x y : SkScalar) (isRtl : Bool)
    (paint : SkPaint) (typeface : Int) : σ :=
  let bidiFlags := if isRtl then kBidi_Force_RTL else kBidi_Force_LTR
  let count := wrap32 (end_ - start)
  let contextCount := wrap32 (contextEnd - contextStart)
  let textArray : TextPtr := ⟨text, contextStart⟩
  K.drawText canvas textArray (wrap32 (start - contextStart)) count contextCount x y bidiFlags
    paint typeface

end CanvasJNI

/-! ## 5d. Two canvases for the draw methods

The recorder writes down the calls it is handed, so that what a native method
asks of the canvas is a list that can be read off; the state machine of
section 4 is extended with the drawing methods. -/

/-- One call of a method of `Canvas`, with the arguments it was handed. -/
inductive CanvasCall where
  | save (flags : Int)
  | saveLayer (l t r b : SkScalar) (paint : Option SkPaint) (flags : Int)
  | saveLayerAlpha (l t r b : SkScalar) (alpha flags : Int)
  | restore
  | restoreToCount (saveCount : Int)
  | setMatrix (matrix : SkMatrix)
  | concat (matrix : SkMatrix)
  | rotate (degrees : SkScalar)
  | scale (sx sy : SkScalar)
  | skew (sx sy : SkScalar)
  | translate (dx dy : SkScalar)
  | clipRect (l t r b : SkScalar) (op : Int)
  | clipPath (path : Int) (op : Int)
  | clipRegion (region : Int) (op : Int)
  | drawPoints (points : ArrayPtr SkScalar) (count : Int) (paint : SkPaint)
  | drawLines (points : ArrayPtr SkScalar) (count : Int) (paint : SkPaint)
  | drawVertices (mode vertexCount : Int) (verts texs : ArrayPtr SkScalar)
      (colors indices : Option (ArrayPtr Int)) (indexCount : Int) (paint : SkPaint)
  | drawBitmap (bitmap : Int) (left top : SkScalar) (paint : Option SkPaint)
  | drawBitmapRect (bitmap : Int) (src dst : SkRect) (paint : Option SkPaint)
  | drawText (text : TextPtr) (start count contextCount : Int) (x y : SkScalar)
      (bidiFlags : Int) (paint : SkPaint) (typeface : Int)
deriving DecidableEq

/-- A canvas that only writes down, in order, the calls it receives.  Its
queries answer with fixed values; the native draw methods make none. -/
def recorder : CanvasDrawApi (List CanvasCall) where
  getSaveCount := fun _ => 1
  save := fun log flags => (log ++ [CanvasCall.save flags], 1)
  saveLayer := fun log l t r b paint flags =>
    (log ++ [CanvasCall.saveLayer l t r b paint flags], 1)
  saveLayerAlpha := fun log l t r b alpha flags =>
    (log ++ [CanvasCall.saveLayerAlpha l t r b alpha flags], 1)
  restore := fun log => log ++ [CanvasCall.restore]
  restoreToCount := fun log n => log ++ [CanvasCall.restoreToCount n]
  getMatrix := fun _ => SkMatrix.I
  setMatrix := fun log m => log ++ [CanvasCall.setMatrix m]
  concat := fun log m => log ++ [CanvasCall.concat m]
  rotate := fun log d => log ++ [CanvasCall.rotate d]
  scale := fun log sx sy => log ++ [CanvasCall.scale sx sy]
  skew := fun log sx sy => log ++ [CanvasCall.skew sx sy]
  translate := fun log dx dy => log ++ [CanvasCall.translate dx dy]
  getClipBounds := fun _ => (false, ⟨0, 0, 0, 0⟩)
  clipRect := fun log l t r b op => (log ++ [CanvasCall.clipRect l t r b op], false)
  clipPath := fun log h op => (log ++ [CanvasCall.clipPath h op], false)
  clipRegion := fun log h op => (log ++ [CanvasCall.clipRegion h op], false)
  drawPoints := fun log pts count paint => log ++ [CanvasCall.drawPoints pts count paint]
  drawLines := fun log pts count paint => log ++ [CanvasCall.drawLines pts count paint]
  drawVertices := fun log mode vertexCount verts texs colors indices indexCount paint =>
    log ++ [CanvasCall.drawVertices mode vertexCount verts texs colors indices indexCount paint]
  drawBitmap := fun log bitmap left top paint =>
    log ++ [CanvasCall.drawBitmap bitmap left top paint]
  drawBitmapRect := fun log bitmap src dst paint =>
    log ++ [CanvasCall.drawBitmapRect bitmap src dst paint]
  drawText := fun log text start count contextCount x y bidiFlags paint typeface =>
    log ++ [CanvasCall.drawText text start count contextCount x y bidiFlags paint typeface]

/-- Modelled from the spec: the state machine with the drawing methods.  A
draw primitive is executed by the rasterizer, an external collaborator that
reads the stack's current transform, clip and target and paints pixels; the
state machine holds no pixels, and no draw changes the stack. -/
def CanvasContext.drawApi {Region : Type} (G : Graphics Region) :
    CanvasDrawApi (CanvasContext Region) where
  toCanvasApi := CanvasContext.api G
  drawPoints := fun c _ _ _ => c
  drawLines := fun c _ _ _ => c
  drawVertices := fun c _ _ _ _ _ _ _ _ => c
  drawBitmap := fun c _ _ _ _ => c
  drawBitmapRect := fun c _ _ _ _ => c
  drawText := fun c _ _ _ _ _ _ _ _ _ => c

/-! ## 6. General lemmas -/

section Lemmas

variable {σ : Type} {Region : Type}

theorem api_getSaveCount (G : Graphics Region) (c : CanvasContext Region) :
    (CanvasContext.api G).getSaveCount c = (c.stateStack.length : Int) := rfl

theorem api_getCTM (G : Graphics Region) (c : CanvasContext Region) :
    CanvasJNI.getCTM (CanvasContext.api G) c =
      (c.stateStack.headD (CanvasContext.defaultState G)).transform := rfl

theorem restore_stateStack (c : CanvasContext Region) :
    (CanvasContext.restore c).stateStack = c.stateStack.tail := by
  unfold CanvasContext.restore
  cases h : c.stateStack with
  | nil => simp [h]
  | cons s rest =>
    cases hl : s.layerTarget <;> simp [hl]

theorem iterate_restore_stateStack (k : ℕ) (c : CanvasContext Region) :
    (CanvasContext.restore^[k] c).stateStack = c.stateStack.drop k := by
  induction k generalizing c with
  | zero => simp
  | succ k ih =>
    rw [Function.iterate_succ_apply, ih, restore_stateStack]
    cases c.stateStack <;> simp

theorem restoreToCount_stateStack (c : CanvasContext Region) (n : Int) :
    (CanvasContext.restoreToCount c n).stateStack =
      c.stateStack.drop ((c.stateStack.length : Int) - n).toNat := by
  simp [CanvasContext.restoreToCount, iterate_restore_stateStack, CanvasContext.getSaveCount]

theorem modifyTop_stateStack (f : DrawState Region → DrawState Region) (c : CanvasContext Region) :
    (CanvasContext.modifyTop f c).stateStack =
      match c.stateStack with
      | [] => []
      | s :: rest => f s :: rest := by
  unfold CanvasContext.modifyTop
  cases h : c.stateStack <;> simp [h]

theorem stackStep_modifyTop (f : DrawState Region → DrawState Region) (c : CanvasContext Region) :
    StackStep c.stateStack (CanvasContext.modifyTop f c).stateStack := by
  rw [modifyTop_stateStack]
  cases h : c.stateStack with
  | nil => exact Or.inr (Or.inl rfl)
  | cons s rest => exact Or.inr (Or.inr (Or.inr ⟨s, f s, rest, rfl, rfl⟩))

theorem stackStep_saveLayer (G : Graphics Region) (c : CanvasContext Region) (l t r b : SkScalar)
    (paint : Option SkPaint) (flags : Int) :
    StackStep c.stateStack (CanvasContext.saveLayer G c l t r b paint flags).1.stateStack := by
  unfold CanvasContext.saveLayer
  simp only
  split
  · exact Or.inr (Or.inl rfl)
  · exact Or.inl ⟨_, rfl⟩

theorem invoke_stackStep (G : Graphics Region) (c : CanvasContext Region) (call : NativeCall) :
    StackStep c.stateStack (CanvasJNI.invoke (CanvasContext.api G) c call).stateStack := by
  cases call with
  | save flags => exact Or.inl ⟨_, rfl⟩
  | saveLayer l t r b paint flags => exact stackStep_saveLayer G c l t r b paint flags
  | saveLayerAlpha l t r b alpha flags => exact stackStep_saveLayer G c l t r b _ flags
  | restore =>
    simp only [CanvasJNI.invoke, CanvasJNI.restore, api_getSaveCount]
    split
    · exact Or.inr (Or.inl rfl)
    · next h =>
      refine Or.inr (Or.inr (Or.inl ⟨1, ?_, ?_⟩))
      · omega
      · show (CanvasContext.restore c).stateStack = _
        rw [restore_stateStack]; simp
  | restoreToCount n =>
    simp only [CanvasJNI.invoke, CanvasJNI.restoreToCount, api_getSaveCount]
    split
    · exact Or.inr (Or.inl rfl)
    · next h =>
      refine Or.inr (Or.inr (Or.inl ⟨((c.stateStack.length : Int) - n).toNat, ?_, ?_⟩))
      · omega
      · show (CanvasContext.restoreToCount c n).stateStack = _
        rw [restoreToCount_stateStack]
  | setMatrix m => exact stackStep_modifyTop _ c
  | concat m => exact stackStep_modifyTop _ c
  | rotate d => exact stackStep_modifyTop _ c
  | scale sx sy => exact stackStep_modifyTop _ c
  | skew sx sy => exact stackStep_modifyTop _ c
  | translate dx dy => exact stackStep_modifyTop _ c
  | clipRect l t r b op => exact stackStep_modifyTop _ c
  | clipPath h op => exact stackStep_modifyTop _ c
  | clipRegion h op => exact stackStep_modifyTop _ c

theorem stackStep_length_pos {st st1 : List (DrawState Region)} (h : StackStep st st1)
    (hpos : 1 ≤ st.length) : 1 ≤ st1.length := by
  rcases h with ⟨s, rfl⟩ | rfl | ⟨k, hk, rfl⟩ | ⟨s, t, r, rfl, rfl⟩
  · simp
  · exact hpos
  · simp; omega
  · simp

theorem stackStep_suffix {base st st1 : List (DrawState Region)} (h : StackStep st st1)
    (hsuf : base <:+ st) (hlen : base.length < st1.length) : base <:+ st1 := by
  rcases h with ⟨s, rfl⟩ | rfl | ⟨k, hk, rfl⟩ | ⟨s, t, r, rfl, rfl⟩
  · exact hsuf.trans (List.suffix_cons s st)
  · exact hsuf
  · obtain ⟨pre, rfl⟩ := hsuf
    simp only [List.length_drop, List.length_append] at hlen
    rw [List.drop_append_of_le_length (by omega)]
    exact List.suffix_append _ _
  · rcases List.suffix_cons_iff.mp hsuf with heq | hs
    · simp [heq] at hlen
    · exact hs.trans (List.suffix_cons t r)

theorem invokeAll_length_pos (G : Graphics Region) (calls : List NativeCall)
    (c : CanvasContext Region) (hpos : 1 ≤ c.stateStack.length) :
    1 ≤ (CanvasJNI.invokeAll (CanvasContext.api G) calls c).stateStack.length := by
  induction calls generalizing c with
  | nil => exact hpos
  | cons call rest ih =>
    exact ih _ (stackStep_length_pos (invoke_stackStep G c call) hpos)

theorem invokeAll_suffix (G : Graphics Region) (base : List (DrawState Region))
    (calls : List NativeCall) (c : CanvasContext Region)
    (hsuf : base <:+ c.stateStack) (hlen : base.length < c.stateStack.length)
    (hstay : CanvasJNI.staysAbove (CanvasContext.api G) base.length calls c = true) :
    base <:+ (CanvasJNI.invokeAll (CanvasContext.api G) calls c).stateStack ∧
      base.length < (CanvasJNI.invokeAll (CanvasContext.api G) calls c).stateStack.length := by
  induction calls generalizing c with
  | nil => exact ⟨hsuf, hlen⟩
  | cons call rest ih =>
    simp only [CanvasJNI.staysAbove, Bool.and_eq_true, decide_eq_true_eq, api_getSaveCount] at hstay
    have hl : base.length < (CanvasJNI.invoke (CanvasContext.api G) c call).stateStack.length := by
      exact_mod_cast hstay.1
    exact ih _ (stackStep_suffix (invoke_stackStep G c call) hsuf hl) hl hstay.2

theorem drop_to_suffix {α : Type} {base st : List α} (hsuf : base <:+ st) :
    st.drop (st.length - base.length) = base := by
  obtain ⟨pre, rfl⟩ := hsuf
  simp

theorem save_family_top (G : Graphics Region) (c : CanvasContext Region) (sv : NativeCall)
    (flags : Int) (hsv : sv.saveFlags = some flags)
    (hpush : (CanvasContext.api G).getSaveCount (CanvasJNI.invoke (CanvasContext.api G) c sv) =
      (CanvasContext.api G).getSaveCount c + 1) :
    ∃ layer paint, (CanvasJNI.invoke (CanvasContext.api G) c sv).stateStack =
      CanvasContext.pushed G (CanvasContext.top G c) flags layer paint :: c.stateStack := by
  have key : ∀ l t r b paint,
      ((CanvasContext.saveLayer G c l t r b paint flags).1.stateStack.length : Int) =
        (c.stateStack.length : Int) + 1 →
      ∃ layer paint1, (CanvasContext.saveLayer G c l t r b paint flags).1.stateStack =
        CanvasContext.pushed G (CanvasContext.top G c) flags layer paint1 :: c.stateStack := by
    intro l t r b paint
    unfold CanvasContext.saveLayer
    simp only
    split
    · intro h; simp at h
    · intro _; exact ⟨_, _, rfl⟩
  cases sv with
  | save f =>
    simp only [NativeCall.saveFlags, Option.some.injEq] at hsv
    subst hsv
    exact ⟨none, none, rfl⟩
  | saveLayer l t r b paint f =>
    simp only [NativeCall.saveFlags, Option.some.injEq] at hsv
    subst hsv
    exact key l t r b paint hpush
  | saveLayerAlpha l t r b alpha f =>
    simp only [NativeCall.saveFlags, Option.some.injEq] at hsv
    subst hsv
    exact key l t r b _ hpush
  | _ => simp [NativeCall.saveFlags] at hsv

theorem save_getSaveCount (G : Graphics Region) (c : CanvasContext Region) (flags : Int) :
    (CanvasContext.api G).getSaveCount (CanvasJNI.save (CanvasContext.api G) c flags).1 =
      (CanvasContext.api G).getSaveCount c + 1 := by
  show (((CanvasContext.save G c flags).1.stateStack.length : ℕ) : Int) =
    ((c.stateStack.length : ℕ) : Int) + 1
  simp [CanvasContext.save]

theorem restore_getSaveCount (G : Graphics Region) (c : CanvasContext Region)
    (h : 1 < (CanvasContext.api G).getSaveCount c) :
    CanvasJNI.restore (CanvasContext.api G) c = ⟨CanvasContext.restore c, none⟩ ∧
      (CanvasContext.api G).getSaveCount (CanvasContext.restore c) =
        (CanvasContext.api G).getSaveCount c - 1 := by
  constructor
  · unfold CanvasJNI.restore
    rw [if_neg (by omega)]
    rfl
  · rw [api_getSaveCount] at h
    rw [api_getSaveCount, api_getSaveCount, restore_stateStack, List.length_tail]
    omega

theorem emptiedClip_stateStack :
    RectRegion.emptiedClip.stateStack = [⟨SkMatrix.I, [], none, none⟩] := by
  simp only [RectRegion.emptiedClip, CanvasJNI.clipRect, CanvasContext.api, CanvasContext.clip,
    RectRegion.fresh, CanvasContext.attach, CanvasContext.modifyTop, RectRegion.world,
    RectRegion.graphics]
  norm_num [RectRegion.combineOp, RectRegion.kIntersect_Op, RectRegion.kDifference_Op,
    RectRegion.inter, RectRegion.normalize, RectRegion.intersectRect, SkRect.isEmpty,
    RectRegion.mapRect, SkMatrix.I]

theorem fractionalClip_stateStack :
    RectRegion.fractionalClip.stateStack =
      [⟨SkMatrix.I, [⟨3 / 4, 3 / 4, 41 / 4, 41 / 4⟩], none, none⟩] := by
  simp only [RectRegion.fractionalClip, CanvasJNI.clipRect, CanvasContext.api, CanvasContext.clip,
    RectRegion.fresh, CanvasContext.attach, CanvasContext.modifyTop, RectRegion.world,
    RectRegion.graphics]
  norm_num [RectRegion.combineOp, RectRegion.kIntersect_Op, RectRegion.kDifference_Op,
    RectRegion.inter, RectRegion.normalize, RectRegion.intersectRect, SkRect.isEmpty,
    RectRegion.mapRect, SkMatrix.I]

theorem api_getClipBounds (G : Graphics Region) (c : CanvasContext Region) :
    (CanvasContext.api G).getClipBounds c =
      (!G.isEmpty (c.stateStack.headD (CanvasContext.defaultState G)).clip,
        G.getBounds (c.stateStack.headD (CanvasContext.defaultState G)).clip) := rfl

theorem fractionalClip_bounds :
    (CanvasContext.api RectRegion.world).getClipBounds RectRegion.fractionalClip =
      (true, ⟨3 / 4, 3 / 4, 41 / 4, 41 / 4⟩) := by
  rw [api_getClipBounds, fractionalClip_stateStack]
  simp only [RectRegion.world, RectRegion.graphics, List.headD_cons]
  norm_num [RectRegion.normalize, SkRect.isEmpty, RectRegion.bounds]

theorem emptiedClip_bounds :
    (CanvasContext.api RectRegion.world).getClipBounds RectRegion.emptiedClip =
      (false, ⟨0, 0, 0, 0⟩) := by
  rw [api_getClipBounds, emptiedClip_stateStack]
  simp only [RectRegion.world, RectRegion.graphics, List.headD_cons]
  norm_num [RectRegion.normalize, SkRect.isEmpty, RectRegion.bounds]

theorem roundHalfEven_intCast (n : Int) : roundHalfEven (n : ℚ) = n := by
  simp [roundHalfEven]

theorem floor_le_roundHalfEven (q : ℚ) : ⌊q⌋ ≤ roundHalfEven q := by
  unfold roundHalfEven
  split_ifs <;> omega

theorem le_roundHalfEven {n : Int} {q : ℚ} (h : (n : ℚ) ≤ q) : n ≤ roundHalfEven q :=
  le_trans (Int.le_floor.mpr h) (floor_le_roundHalfEven q)

theorem roundHalfEven_le {n : Int} {q : ℚ} (h : q ≤ (n : ℚ)) : roundHalfEven q ≤ n := by
  have hf : ⌊q⌋ ≤ n := by
    have := Int.floor_le q
    exact_mod_cast (Int.floor_le q).trans h |> fun h' => Int.cast_le.mp h'
  by_cases hq : q - ⌊q⌋ < 1 / 2
  · simp only [roundHalfEven, hq, if_true]; exact hf
  · have hlt : ⌊q⌋ < n := by
      have h1 : ((⌊q⌋ : Int) : ℚ) < q := by linarith
      exact_mod_cast lt_of_lt_of_le h1 h
    unfold roundHalfEven
    split_ifs <;> omega

theorem succ_le_roundHalfEven {n : Int} {q : ℚ} (h : (n : ℚ) + 1 / 2 < q) :
    n + 1 ≤ roundHalfEven q := by
  have hn : n ≤ ⌊q⌋ := Int.le_floor.mpr (by linarith)
  rcases lt_or_eq_of_le hn with hlt | heq
  · exact le_trans (by omega) (floor_le_roundHalfEven q)
  · have h1 : ¬ (q - ⌊q⌋ < 1 / 2) := by rw [← heq]; linarith
    have h2 : 1 / 2 < q - ⌊q⌋ := by rw [← heq]; linarith
    simp only [roundHalfEven, h1, h2, if_true, if_false]
    omega

theorem float_scale (x : ℚ) (hx : x ≠ 0) :
    (0 : ℚ) < 2 ^ (Int.log 2 |x| - 23) ∧
    (8388608 : ℚ) * 2 ^ (Int.log 2 |x| - 23) = 2 ^ Int.log 2 |x| ∧
    (16777216 : ℚ) * 2 ^ (Int.log 2 |x| - 23) = 2 ^ (Int.log 2 |x| + 1) ∧
    (8388608 : ℚ) * 2 ^ (Int.log 2 |x| - 23) ≤ |x| ∧
    |x| < (16777216 : ℚ) * 2 ^ (Int.log 2 |x| - 23) := by
  have hpos : 0 < |x| := abs_pos.mpr hx
  have h1 := Int.zpow_log_le_self (b := 2) (by norm_num) hpos
  have h2 := Int.lt_zpow_succ_log_self (b := 2) (by norm_num) |x|
  have e1 : (8388608 : ℚ) * 2 ^ (Int.log 2 |x| - 23) = 2 ^ Int.log 2 |x| := by
    have : (8388608 : ℚ) = 2 ^ (23 : Int) := by norm_num
    rw [this, ← zpow_add₀ (by norm_num : (2 : ℚ) ≠ 0)]
    congr 1
    ring
  have e2 : (16777216 : ℚ) * 2 ^ (Int.log 2 |x| - 23) = 2 ^ (Int.log 2 |x| + 1) := by
    have : (16777216 : ℚ) = 2 ^ (24 : Int) := by norm_num
    rw [this, ← zpow_add₀ (by norm_num : (2 : ℚ) ≠ 0)]
    congr 1
    ring
  refine ⟨by positivity, e1, e2, ?_, ?_⟩
  · rw [e1]; exact_mod_cast h1
  · rw [e2]; exact_mod_cast h2

theorem roundToFloat_pos {x : ℚ} (hx : 0 < x) :
    (2 : ℚ) ^ Int.log 2 |x| ≤ roundToFloat x ∧
    roundToFloat x ≤ (2 : ℚ) ^ (Int.log 2 |x| + 1) := by
  obtain ⟨hu, e1, e2, h1, h2⟩ := float_scale x hx.ne'
  have hx1 : |x| = x := abs_of_pos hx
  have hlo : (((8388608 : Int)) : ℚ) ≤ x / 2 ^ (Int.log 2 |x| - 23) := by
    rw [le_div_iff₀ hu]; push_cast; exact h1.trans_eq hx1
  have hhi : x / 2 ^ (Int.log 2 |x| - 23) ≤ (((16777216 : Int)) : ℚ) := by
    rw [div_le_iff₀ hu]; push_cast; exact (lt_of_eq_of_lt hx1.symm h2).le
  have r1q : (8388608 : ℚ) ≤ (roundHalfEven (x / 2 ^ (Int.log 2 |x| - 23)) : ℚ) := by
    exact_mod_cast le_roundHalfEven hlo
  have r2q : (roundHalfEven (x / 2 ^ (Int.log 2 |x| - 23)) : ℚ) ≤ (16777216 : ℚ) := by
    exact_mod_cast roundHalfEven_le hhi
  simp only [roundToFloat, hx.ne', if_false]
  constructor
  · rw [← e1]; exact mul_le_mul_of_nonneg_right r1q hu.le
  · rw [← e2]; exact mul_le_mul_of_nonneg_right r2q hu.le

theorem roundToFloat_neg {x : ℚ} (hx : x < 0) : roundToFloat x < 0 := by
  obtain ⟨hu, e1, e2, h1, h2⟩ := float_scale x hx.ne
  have hx1 : |x| = -x := abs_of_neg hx
  have h1x : (8388608 : ℚ) * 2 ^ (Int.log 2 |x| - 23) ≤ -x := h1.trans_eq hx1
  have hhi : x / 2 ^ (Int.log 2 |x| - 23) ≤ (((-1 : Int)) : ℚ) := by
    rw [div_le_iff₀ hu]
    push_cast
    linarith
  have r2q : (roundHalfEven (x / 2 ^ (Int.log 2 |x| - 23)) : ℚ) ≤ -1 := by
    exact_mod_cast roundHalfEven_le hhi
  simp only [roundToFloat, hx.ne, if_false]
  nlinarith

theorem roundToFloat_ne_zero {x : ℚ} (hx : x ≠ 0) : roundToFloat x ≠ 0 := by
  rcases lt_or_gt_of_ne hx with h | h
  · exact (roundToFloat_neg h).ne
  · have := (roundToFloat_pos h).1
    have hp : (0 : ℚ) < 2 ^ Int.log 2 |x| := by positivity
    linarith

theorem roundToFloat_intCast (n : Int) (hn : |n| < 16777216) : roundToFloat (n : ℚ) = n := by
  by_cases h0 : n = 0
  · simp [h0, roundToFloat]
  have hq : (n : ℚ) ≠ 0 := by exact_mod_cast h0
  have hlog : Int.log 2 |(n : ℚ)| < 24 := by
    apply (Int.lt_zpow_iff_log_lt (b := 2) (by norm_num) (abs_pos.mpr hq)).mp
    have : |(n : ℚ)| < 16777216 := by exact_mod_cast hn
    norm_num
    exact this
  obtain ⟨k, hk⟩ : ∃ k : ℕ, (k : Int) = 23 - Int.log 2 |(n : ℚ)| := ⟨(23 - Int.log 2 |(n : ℚ)|).toNat, by omega⟩
  have hu : (2 : ℚ) ^ (Int.log 2 |(n : ℚ)| - 23) = ((2 : ℚ) ^ k)⁻¹ := by
    rw [← zpow_natCast, ← zpow_neg, hk]
    congr 1
    ring
  simp only [roundToFloat, hq, if_false]
  rw [hu, div_inv_eq_mul]
  have hc : (n : ℚ) * 2 ^ k = ((n * 2 ^ k : Int) : ℚ) := by push_cast; ring
  rw [hc, roundHalfEven_intCast]
  push_cast
  field_simp

theorem roundToFloat_ne_one {q : ℚ} (hq : 1 / 16777216 < |q - 1|) : roundToFloat q ≠ 1 := by
  intro h1
  have hq0 : q ≠ 0 := by
    intro h; rw [h] at h1; simp [roundToFloat] at h1
  rcases lt_or_gt_of_ne hq0 with hneg | hpos
  · have := roundToFloat_neg hneg
    linarith
  obtain ⟨hu, e1, e2, b1, b2⟩ := float_scale q hq0
  obtain ⟨p1, p2⟩ := roundToFloat_pos hpos
  have hq1 : |q| = q := abs_of_pos hpos
  rcases lt_or_ge q 1 with hlt | hge
  · have habs : 1 / 16777216 < 1 - q := by
      rw [abs_of_neg (by linarith)] at hq; linarith
    have hlog : Int.log 2 |q| < 0 := by
      apply (Int.lt_zpow_iff_log_lt (b := 2) (by norm_num) (abs_pos.mpr hq0)).mp
      rw [hq1]; simpa using hlt
    rcases lt_or_ge (Int.log 2 |q|) (-1) with h2 | h2
    · have hz : (2 : ℚ) ^ (Int.log 2 |q| + 1) ≤ 2 ^ (-1 : Int) :=
        zpow_le_zpow_right₀ (by norm_num) (by omega)
      have hz2 : (2 : ℚ) ^ (-1 : Int) = 1 / 2 := by norm_num
      rw [hz2] at hz
      linarith
    · have he : Int.log 2 |q| = -1 := by omega
      have hu2 : (2 : ℚ) ^ (Int.log 2 |q| - 23) = 1 / 16777216 := by
        rw [he]; norm_num [zpow_neg]
      have hhi : q / 2 ^ (Int.log 2 |q| - 23) ≤ (((16777215 : Int)) : ℚ) := by
        rw [hu2]; push_cast; rw [div_le_iff₀ (by norm_num)]; linarith
      have r2q : (roundHalfEven (q / 2 ^ (Int.log 2 |q| - 23)) : ℚ) ≤ 16777215 := by
        exact_mod_cast roundHalfEven_le hhi
      simp only [roundToFloat, hq0, if_false] at h1
      rw [hu2] at h1 r2q
      linarith
  · have habs : 1 / 16777216 < q - 1 := by
      rcases eq_or_lt_of_le hge with h | h
      · rw [← h] at hq; norm_num at hq
      · rw [abs_of_pos (by linarith)] at hq; exact hq
    have hlog : 0 ≤ Int.log 2 |q| := by
      apply (Int.zpow_le_iff_le_log (b := 2) (by norm_num) (abs_pos.mpr hq0)).mp
      rw [hq1]; simpa using hge
    rcases eq_or_lt_of_le hlog with h0 | hgt
    · have hu2 : (2 : ℚ) ^ (Int.log 2 |q| - 23) = 1 / 8388608 := by
        rw [← h0]; norm_num [zpow_neg]
      have hlo : (((8388608 : Int)) : ℚ) + 1 / 2 < q / 2 ^ (Int.log 2 |q| - 23) := by
        rw [hu2]; push_cast; rw [lt_div_iff₀ (by norm_num)]; linarith
      have r1q : (8388609 : ℚ) ≤ (roundHalfEven (q / 2 ^ (Int.log 2 |q| - 23)) : ℚ) := by
        exact_mod_cast succ_le_roundHalfEven hlo
      simp only [roundToFloat, hq0, if_false] at h1
      rw [hu2] at h1 r1q
      linarith
    · have hz : (2 : ℚ) ^ (1 : Int) ≤ 2 ^ Int.log 2 |q| :=
        zpow_le_zpow_right₀ (by norm_num) (by omega)
      have h2 : (2 : ℚ) ^ (1 : Int) = 2 := by norm_num
      rw [h2] at hz
      linarith

theorem ratio_far_from_one (a b : Int) (hb : b ≠ 0) (hab : a ≠ b) (hbb : |b| < 16777216) :
    1 / 16777216 < |(a : ℚ) / b - 1| := by
  have hbq : (b : ℚ) ≠ 0 := by exact_mod_cast hb
  have e : (a : ℚ) / b - 1 = (a - b) / b := by field_simp
  rw [e, abs_div]
  have h1 : (1 : ℚ) ≤ |(a : ℚ) - b| := by
    have : (1 : Int) ≤ |a - b| := Int.one_le_abs (sub_ne_zero.mpr hab)
    exact_mod_cast this
  have h2 : |(b : ℚ)| < 16777216 := by exact_mod_cast hbb
  have h3 : 0 < |(b : ℚ)| := abs_pos.mpr hbq
  rw [lt_div_iff₀ h3]
  linarith

theorem densityScale_ne_zero (cd bd : Int) (hc : cd ≠ 0) (hb : bd ≠ 0) :
    roundToFloat (bd : ℚ) ≠ 0 ∧ densityScale cd bd ≠ 0 := by
  have h1 : roundToFloat (bd : ℚ) ≠ 0 := roundToFloat_ne_zero (by exact_mod_cast hb)
  have h2 : roundToFloat (cd : ℚ) ≠ 0 := roundToFloat_ne_zero (by exact_mod_cast hc)
  exact ⟨h1, roundToFloat_ne_zero (div_ne_zero h2 h1)⟩

theorem densityScale_ne_one (cd bd : Int) (hb : bd ≠ 0) (hcb : cd ≠ bd)
    (hc24 : |cd| < 16777216) (hb24 : |bd| < 16777216) : densityScale cd bd ≠ 1 := by
  unfold densityScale
  rw [roundToFloat_intCast cd hc24, roundToFloat_intCast bd hb24]
  exact roundToFloat_ne_one (ratio_far_from_one cd bd hb hcb hb24)

theorem lor_neg_iff (m n : Int) : Int.lor m n < 0 ↔ m < 0 ∨ n < 0 := by
  cases m <;> cases n <;> simp [Int.lor, Int.negSucc_lt_zero]
  omega

theorem drawBitmap_recorded (log : List CanvasCall) (bitmap : Int) (left top : SkScalar)
    (paint : Option SkPaint) (cd sd bd : Int) :
    CanvasJNI.drawBitmap recorder log bitmap left top paint cd sd bd =
      log ++ (if cd = bd ∨ cd = 0 ∨ bd = 0 then
          [CanvasCall.drawBitmap bitmap left top
            (if sd ≠ 0 ∧ sd ≠ bd then some (CanvasJNI.filteredPaint paint) else paint)]
        else
          [CanvasCall.save kMatrixClip_SaveFlag, CanvasCall.translate left top,
           CanvasCall.scale (densityScale cd bd) (densityScale cd bd),
           CanvasCall.drawBitmap bitmap 0 0 (some (CanvasJNI.filteredPaint paint)),
           CanvasCall.restore]) := by
  unfold CanvasJNI.drawBitmap
  split_ifs <;> simp [recorder]

theorem drawBitmapRect_recorded (log : List CanvasCall) (bitmap : Int)
    (sl st sr sb dl dt dr db : SkScalar) (paint : Option SkPaint) (sd bd : Int) :
    CanvasJNI.drawBitmapRect recorder log bitmap sl st sr sb dl dt dr db paint sd bd =
      log ++ [CanvasCall.drawBitmapRect bitmap ⟨sl, st, sr, sb⟩ ⟨dl, dt, dr, db⟩
        (if sd ≠ 0 ∧ sd ≠ bd then some (CanvasJNI.filteredPaint paint) else paint)] := by
  unfold CanvasJNI.drawBitmapRect
  split_ifs <;> simp [recorder]

theorem drawBitmap_stateStack {Region : Type} (G : Graphics Region) (c : CanvasContext Region)
    (bitmap : Int) (left top : SkScalar) (paint : Option SkPaint) (cd sd bd : Int) :
    (CanvasJNI.drawBitmap (CanvasContext.drawApi G) c bitmap left top paint cd sd bd).stateStack =
      c.stateStack := by
  unfold CanvasJNI.drawBitmap
  split_ifs
  · rfl
  · rfl
  · show (CanvasContext.restore (CanvasContext.scale (CanvasContext.translate
      (CanvasContext.save G c kMatrixClip_SaveFlag).1 left top) _ _)).stateStack = c.stateStack
    rw [restore_stateStack]
    simp [CanvasContext.scale, CanvasContext.translate, CanvasContext.concat,
      modifyTop_stateStack, CanvasContext.save]

theorem drawPoints_pending_iff (K : CanvasDrawApi σ) (canvas : σ) (floats : List SkScalar)
    (offset count : Int) (paint : SkPaint)
    (ho : -2147483648 ≤ offset ∧ offset < 2147483648)
    (hc : -2147483648 ≤ count ∧ count < 2147483648) :
    (CanvasJNI.drawPoints K canvas (some floats) offset count paint).pending = none ↔
      (0 ≤ offset ∧ 0 ≤ count ∧
        (offset + count ≤ floats.length ∨ 2147483648 ≤ offset + count)) := by
  unfold CanvasJNI.drawPoints
  simp only [lor_neg_iff, wrap32]
  split_ifs with h
  · simp only [doThrowAIOOBE, reduceCtorEq, false_iff]
    omega
  · simp only [true_iff]
    omega

theorem drawLines_pending_iff (K : CanvasDrawApi σ) (canvas : σ) (floats : List SkScalar)
    (offset count : Int) (paint : SkPaint)
    (ho : -2147483648 ≤ offset ∧ offset < 2147483648)
    (hc : -2147483648 ≤ count ∧ count < 2147483648) :
    (CanvasJNI.drawLines K canvas (some floats) offset count paint).pending = none ↔
      (0 ≤ offset ∧ 0 ≤ count ∧
        (offset + count ≤ floats.length ∨ 2147483648 ≤ offset + count)) := by
  unfold CanvasJNI.drawLines
  simp only [lor_neg_iff, wrap32]
  split_ifs with h
  · simp only [doThrowAIOOBE, reduceCtorEq, false_iff]
    omega
  · simp only [true_iff]
    omega

theorem log2_eq {x : ℚ} {e : Int} (h1 : (2 : ℚ) ^ e ≤ x) (h2 : x < 2 ^ (e + 1)) :
    Int.log 2 x = e := by
  have hx : 0 < x := lt_of_lt_of_le (by positivity) h1
  apply le_antisymm
  · have := (Int.lt_zpow_iff_log_lt (b := 2) (by norm_num) hx (x := e + 1)).mp
      (by exact_mod_cast h2)
    omega
  · exact (Int.zpow_le_iff_le_log (b := 2) (by norm_num) hx).mp (by exact_mod_cast h1)

theorem roundToFloat_33554433 : roundToFloat 33554433 = 33554432 := by
  have hl : Int.log 2 |(33554433 : ℚ)| = 25 := by
    rw [abs_of_pos (by norm_num)]
    exact log2_eq (by norm_num) (by norm_num)
  have hf : ⌊(33554433 : ℚ) / 4⌋ = 8388608 := by
    rw [Int.floor_eq_iff]; norm_num
  have hr : roundHalfEven ((33554433 : ℚ) / 4) = 8388608 := by
    simp only [roundHalfEven, hf]; norm_num
  have hu : (2 : ℚ) ^ ((25 : Int) - 23) = 4 := by norm_num
  simp only [roundToFloat, hl, hu, hr]
  norm_num

theorem roundToFloat_33554434 : roundToFloat 33554434 = 33554432 := by
  have hl : Int.log 2 |(33554434 : ℚ)| = 25 := by
    rw [abs_of_pos (by norm_num)]
    exact log2_eq (by norm_num) (by norm_num)
  have hf : ⌊(33554434 : ℚ) / 4⌋ = 8388608 := by
    rw [Int.floor_eq_iff]; norm_num
  have hr : roundHalfEven ((33554434 : ℚ) / 4) = 8388608 := by
    simp only [roundHalfEven, hf]; norm_num
  have hu : (2 : ℚ) ^ ((25 : Int) - 23) = 4 := by norm_num
  simp only [roundToFloat, hl, hu, hr]
  norm_num

theorem densityScale_33554433_33554434 : densityScale 33554433 33554434 = 1 := by
  unfold densityScale
  have h1 : ((33554433 : Int) : ℚ) = 33554433 := by norm_num
  have h2 : ((33554434 : Int) : ℚ) = 33554434 := by norm_num
  rw [h1, h2, roundToFloat_33554433, roundToFloat_33554434]
  have h3 : (33554432 : ℚ) / 33554432 = ((1 : Int) : ℚ) := by norm_num
  rw [h3, roundToFloat_intCast 1 (by norm_num)]
  norm_num

theorem roundToFloat_exact {y : ℚ} (e m : Int) (hy : y ≠ 0) (he : Int.log 2 |y| = e)
    (hm : y / 2 ^ (e - 23) = (m : ℚ)) : roundToFloat y = y := by
  simp only [roundToFloat, hy, if_false, he, hm, roundHalfEven_intCast]
  rw [← hm]
  have hu : (2 : ℚ) ^ (e - 23) ≠ 0 := by positivity
  field_simp

theorem roundToFloat_grid (y : ℚ) (hy : |y| < 16777216) (n : Int) :
    ((n : ℚ) ≤ y → (n : ℚ) ≤ roundToFloat y) ∧ (y ≤ (n : ℚ) → roundToFloat y ≤ (n : ℚ)) := by
  by_cases h0 : y = 0
  · simp [h0, roundToFloat]
  have hlog : Int.log 2 |y| < 24 := by
    apply (Int.lt_zpow_iff_log_lt (b := 2) (by norm_num) (abs_pos.mpr h0)).mp
    norm_num
    exact hy
  obtain ⟨k, hk⟩ : ∃ k : ℕ, (k : Int) = 23 - Int.log 2 |y| :=
    ⟨(23 - Int.log 2 |y|).toNat, by omega⟩
  have hu : (2 : ℚ) ^ (Int.log 2 |y| - 23) = ((2 : ℚ) ^ k)⁻¹ := by
    rw [← zpow_natCast, ← zpow_neg, hk]
    congr 1
    ring
  have hp : (0 : ℚ) < 2 ^ k := by positivity
  simp only [roundToFloat, h0, if_false]
  rw [hu, div_inv_eq_mul]
  have hc : (n : ℚ) * 2 ^ k = ((n * 2 ^ k : Int) : ℚ) := by push_cast; ring
  constructor
  · intro h
    have h1 : ((n * 2 ^ k : Int) : ℚ) ≤ y * 2 ^ k := by
      rw [← hc]; exact mul_le_mul_of_nonneg_right h hp.le
    have h2 : ((n * 2 ^ k : Int) : ℚ) ≤ (roundHalfEven (y * 2 ^ k) : ℚ) := by
      exact_mod_cast le_roundHalfEven h1
    rw [← hc] at h2
    rw [← div_eq_mul_inv, le_div_iff₀ hp]
    exact h2
  · intro h
    have h1 : y * 2 ^ k ≤ ((n * 2 ^ k : Int) : ℚ) := by
      rw [← hc]; exact mul_le_mul_of_nonneg_right h hp.le
    have h2 : (roundHalfEven (y * 2 ^ k) : ℚ) ≤ ((n * 2 ^ k : Int) : ℚ) := by
      exact_mod_cast roundHalfEven_le h1
    rw [← hc] at h2
    rw [← div_eq_mul_inv, div_le_iff₀ hp]
    exact h2

theorem roundToInt_bounds (x : SkScalar) (hx : |x + 1 / 2| < 16777216) :
    ⌊x + 1 / 2⌋ ≤ SkScalarRoundToInt x ∧ SkScalarRoundToInt x ≤ ⌊x + 1 / 2⌋ + 1 ∧
    x - 1 / 2 < (SkScalarRoundToInt x : ℚ) ∧ (SkScalarRoundToInt x : ℚ) < x + 3 / 2 ∧
    |(SkScalarRoundToInt x : ℚ)| ≤ 16777216 ∧
    (roundToFloat (x + 1 / 2) = x + 1 / 2 →
      SkScalarRoundToInt x = ⌊x + 1 / 2⌋ ∧ |(SkScalarRoundToInt x : ℚ) - x| ≤ 1 / 2) := by
  have hlo : ⌊x + 1 / 2⌋ ≤ SkScalarRoundToInt x :=
    Int.le_floor.mpr ((roundToFloat_grid _ hx _).1 (Int.floor_le _))
  have hhi : SkScalarRoundToInt x ≤ ⌈x + 1 / 2⌉ := by
    have h1 := (roundToFloat_grid _ hx ⌈x + 1 / 2⌉).2 (Int.le_ceil _)
    have h2 : ((SkScalarRoundToInt x : Int) : ℚ) ≤ roundToFloat (x + 1 / 2) := Int.floor_le _
    exact_mod_cast h2.trans h1
  have hcf : ⌈x + 1 / 2⌉ ≤ ⌊x + 1 / 2⌋ + 1 := Int.ceil_le_floor_add_one _
  have f1 := Int.floor_le (x + 1 / 2)
  have f2 := Int.lt_floor_add_one (x + 1 / 2)
  have c1 := Int.ceil_lt_add_one (x + 1 / 2)
  have hloq : ((⌊x + 1 / 2⌋ : Int) : ℚ) ≤ (SkScalarRoundToInt x : ℚ) := by exact_mod_cast hlo
  have hhiq : (SkScalarRoundToInt x : ℚ) ≤ ((⌈x + 1 / 2⌉ : Int) : ℚ) := by exact_mod_cast hhi
  have habs := abs_lt.mp hx
  have g1 := (roundToFloat_grid _ hx (-16777216)).1 (by push_cast; linarith [habs.1])
  have g2 := (roundToFloat_grid _ hx 16777216).2 (by push_cast; linarith [habs.2])
  have w1 : (-16777216 : Int) ≤ SkScalarRoundToInt x := Int.le_floor.mpr g1
  have w2 : ((SkScalarRoundToInt x : Int) : ℚ) ≤ 16777216 := by
    have h2 : ((SkScalarRoundToInt x : Int) : ℚ) ≤ roundToFloat (x + 1 / 2) := Int.floor_le _
    push_cast at g2
    linarith
  have w1q : (-16777216 : ℚ) ≤ (SkScalarRoundToInt x : ℚ) := by exact_mod_cast w1
  refine ⟨hlo, hhi.trans hcf, by linarith, by linarith, abs_le.mpr ⟨w1q, w2⟩, ?_⟩
  intro hex
  have hw : SkScalarRoundToInt x = ⌊x + 1 / 2⌋ := by
    unfold SkScalarRoundToInt; rw [hex]
  refine ⟨hw, ?_⟩
  rw [hw, abs_le]
  constructor <;> linarith

theorem roundToInt_zero : SkScalarRoundToInt 0 = 0 := by
  have hl : Int.log 2 |(0 : ℚ) + 1 / 2| = -1 := by
    rw [abs_of_pos (by norm_num)]
    exact log2_eq (by norm_num) (by norm_num)
  have he : roundToFloat ((0 : ℚ) + 1 / 2) = 0 + 1 / 2 :=
    roundToFloat_exact (-1) 8388608 (by norm_num) hl (by norm_num [zpow_neg])
  unfold SkScalarRoundToInt
  rw [he, Int.floor_eq_iff]
  norm_num

theorem roundToInt_three_quarters : SkScalarRoundToInt (3 / 4) = 1 := by
  have hl : Int.log 2 |(3 / 4 : ℚ) + 1 / 2| = 0 := by
    rw [abs_of_pos (by norm_num)]
    exact log2_eq (by norm_num) (by norm_num)
  have he : roundToFloat ((3 / 4 : ℚ) + 1 / 2) = 3 / 4 + 1 / 2 :=
    roundToFloat_exact 0 10485760 (by norm_num) hl (by norm_num [zpow_neg])
  unfold SkScalarRoundToInt
  rw [he, Int.floor_eq_iff]
  norm_num

theorem roundToInt_forty_one_quarters : SkScalarRoundToInt (41 / 4) = 10 := by
  have hl : Int.log 2 |(41 / 4 : ℚ) + 1 / 2| = 3 := by
    rw [abs_of_pos (by norm_num)]
    exact log2_eq (by norm_num) (by norm_num)
  have he : roundToFloat ((41 / 4 : ℚ) + 1 / 2) = 41 / 4 + 1 / 2 :=
    roundToFloat_exact 3 11272192 (by norm_num) hl (by norm_num [zpow_neg])
  unfold SkScalarRoundToInt
  rw [he, Int.floor_eq_iff]
  norm_num

theorem roundToInt_below_half : SkScalarRoundToInt (16777215 / 33554432) = 1 := by
  have hs : (16777215 / 33554432 : ℚ) + 1 / 2 = 33554431 / 33554432 := by norm_num
  have hl : Int.log 2 |(33554431 / 33554432 : ℚ)| = -1 := by
    rw [abs_of_pos (by norm_num)]
    exact log2_eq (by norm_num) (by norm_num)
  have hu : (2 : ℚ) ^ ((-1 : Int) - 23) = 1 / 16777216 := by norm_num [zpow_neg]
  have hf : ⌊(33554431 / 33554432 : ℚ) / (1 / 16777216)⌋ = 16777215 := by
    rw [Int.floor_eq_iff]; norm_num
  have hr : roundHalfEven ((33554431 / 33554432 : ℚ) / (1 / 16777216)) = 16777216 := by
    simp only [roundHalfEven, hf]; norm_num
  have he : roundToFloat (33554431 / 33554432) = 1 := by
    simp only [roundToFloat, hl, hu, hr]
    norm_num
  unfold SkScalarRoundToInt
  rw [hs, he]
  norm_num

theorem roundToInt_8388609 : SkScalarRoundToInt 8388609 = 8388610 := by
  have hs : (8388609 : ℚ) + 1 / 2 = 16777219 / 2 := by norm_num
  have hl : Int.log 2 |(16777219 / 2 : ℚ)| = 23 := by
    rw [abs_of_pos (by norm_num)]
    exact log2_eq (by norm_num) (by norm_num)
  have hu : (2 : ℚ) ^ ((23 : Int) - 23) = 1 := by norm_num
  have hf : ⌊(16777219 / 2 : ℚ) / 1⌋ = 8388609 := by
    rw [Int.floor_eq_iff]; norm_num
  have hr : roundHalfEven ((16777219 / 2 : ℚ) / 1) = 8388610 := by
    simp only [roundHalfEven, hf]; norm_num
  have he : roundToFloat (16777219 / 2) = 8388610 := by
    simp only [roundToFloat, hl, hu, hr]
    norm_num
  unfold SkScalarRoundToInt
  rw [hs, he]
  norm_num

end Lemmas

/-! ## 7. The claims -/

section Claims

variable {σ : Type} {Region : Type}

/-- C1: for every canvas whose save count is at most 1, and whatever the
canvas's own `restore` would do, the binding's `restore` raises
IllegalStateException "Underflow in restore" and returns the canvas it was
given; after any number `k` of such calls the canvas is still the original one
and the next call fails in the same way. -/
theorem C1_restore_underflow (K : CanvasApi σ) (canvas : σ)
    (h : K.getSaveCount canvas ≤ 1) (k : ℕ) :
    (fun s => (CanvasJNI.restore K s).canvas)^[k] canvas = canvas ∧
    CanvasJNI.restore K ((fun s => (CanvasJNI.restore K s).canvas)^[k] canvas) =
      ⟨canvas, some (Throwable.IllegalStateException "Underflow in restore")⟩ := by
  have step : CanvasJNI.restore K canvas =
      ⟨canvas, some (Throwable.IllegalStateException "Underflow in restore")⟩ := by
    simp [CanvasJNI.restore, h, doThrowISE]
  have fix : (fun s => (CanvasJNI.restore K s).canvas)^[k] canvas = canvas := by
    apply Function.iterate_fixed
    simp [step]
  exact ⟨fix, by rw [fix]; exact step⟩

/-- C1, at a freshly attached canvas and three repetitions. -/
theorem C1_restore_underflow_witness :
    (CanvasContext.api RectRegion.world).getSaveCount RectRegion.fresh ≤ 1 ∧
    ((fun s => (CanvasJNI.restore (CanvasContext.api RectRegion.world) s).canvas)^[3]
        RectRegion.fresh = RectRegion.fresh ∧
      CanvasJNI.restore (CanvasContext.api RectRegion.world)
          ((fun s => (CanvasJNI.restore (CanvasContext.api RectRegion.world) s).canvas)^[3]
            RectRegion.fresh) =
        ⟨RectRegion.fresh, some (Throwable.IllegalStateException "Underflow in restore")⟩) :=
  ⟨by decide, C1_restore_underflow (CanvasContext.api RectRegion.world) RectRegion.fresh
    (by decide) 3⟩

/-- C2: for every canvas, whatever its own `restoreToCount` does, and every
integer `n`, the binding's `restoreToCount(n)` raises IllegalArgumentException
exactly when `n < 1` or `n` exceeds the save count; it then returns the canvas
it was given (the canvas's `restoreToCount` is not called); for every other `n`
nothing is raised and the canvas's `restoreToCount(n)` is the result. -/
theorem C2_restoreToCount_guard (K : CanvasApi σ) (canvas : σ) (n : Int) :
    ((CanvasJNI.restoreToCount K canvas n).pending =
        some (Throwable.IllegalArgumentException "Underflow in restoreToCount") ↔
      (n < 1 ∨ n > K.getSaveCount canvas)) ∧
    ((CanvasJNI.restoreToCount K canvas n).pending = none ↔
      ¬ (n < 1 ∨ n > K.getSaveCount canvas)) ∧
    ((n < 1 ∨ n > K.getSaveCount canvas) →
      (CanvasJNI.restoreToCount K canvas n).canvas = canvas) ∧
    (¬ (n < 1 ∨ n > K.getSaveCount canvas) →
      (CanvasJNI.restoreToCount K canvas n).canvas = K.restoreToCount canvas n) := by
  by_cases h : n < 1 ∨ n > K.getSaveCount canvas
  · simp [CanvasJNI.restoreToCount, h, doThrowIAE]
  · simp [CanvasJNI.restoreToCount, h]

/-- C2, at a freshly attached canvas and the count 0. -/
theorem C2_restoreToCount_guard_witness :
    (CanvasJNI.restoreToCount (CanvasContext.api RectRegion.world) RectRegion.fresh 0).pending =
      some (Throwable.IllegalArgumentException "Underflow in restoreToCount") ∧
    (CanvasJNI.restoreToCount (CanvasContext.api RectRegion.world) RectRegion.fresh 0).canvas =
      RectRegion.fresh :=
  ⟨(C2_restoreToCount_guard (CanvasContext.api RectRegion.world) RectRegion.fresh 0).1.mpr
      (Or.inl (by decide)),
    (C2_restoreToCount_guard (CanvasContext.api RectRegion.world) RectRegion.fresh 0).2.2.1
      (Or.inl (by decide))⟩

/-- C3, as stated, fails: save (returns 2), translate by (10, 10), save with
the clip flag only (returns 3), then restoreToCount(2).  The call succeeds and
the save count is 2, but the current transform is the translation, which is
neither the transform right after the first save nor the one right after the
second save (both the identity). -/
theorem C3_restoreToCount_counterexample :
    (CanvasJNI.save (CanvasContext.api RectRegion.world) RectRegion.fresh kMatrixClip_SaveFlag).2 = 2 ∧
    (CanvasJNI.save (CanvasContext.api RectRegion.world) RectRegion.afterTranslate
      kClip_SaveFlag).2 = 3 ∧
    CanvasJNI.getCTM (CanvasContext.api RectRegion.world) RectRegion.afterFirstSave = SkMatrix.I ∧
    CanvasJNI.getCTM (CanvasContext.api RectRegion.world) RectRegion.afterSecondSave = SkMatrix.I ∧
    (CanvasJNI.restoreToCount (CanvasContext.api RectRegion.world)
      RectRegion.afterSecondSave 2).pending = none ∧
    CanvasJNI.getSaveCount (CanvasContext.api RectRegion.world)
      (CanvasJNI.restoreToCount (CanvasContext.api RectRegion.world)
        RectRegion.afterSecondSave 2).canvas = 2 ∧
    CanvasJNI.getCTM (CanvasContext.api RectRegion.world)
      (CanvasJNI.restoreToCount (CanvasContext.api RectRegion.world)
        RectRegion.afterSecondSave 2).canvas = SkMatrix.translation 10 10 ∧
    CanvasJNI.getCTM (CanvasContext.api RectRegion.world)
      (CanvasJNI.restoreToCount (CanvasContext.api RectRegion.world)
        RectRegion.afterSecondSave 2).canvas ≠
      CanvasJNI.getCTM (CanvasContext.api RectRegion.world) RectRegion.afterFirstSave ∧
    CanvasJNI.getCTM (CanvasContext.api RectRegion.world)
      (CanvasJNI.restoreToCount (CanvasContext.api RectRegion.world)
        RectRegion.afterSecondSave 2).canvas ≠
      CanvasJNI.getCTM (CanvasContext.api RectRegion.world) RectRegion.afterSecondSave := by
  have h3 : hasFlag kMatrixClip_SaveFlag kMatrix_SaveFlag = true := by decide
  have h4 : hasFlag kMatrixClip_SaveFlag kClip_SaveFlag = true := by decide
  have h5 : hasFlag kClip_SaveFlag kMatrix_SaveFlag = false := by decide
  have h6 : hasFlag kClip_SaveFlag kClip_SaveFlag = true := by decide
  have e1 : RectRegion.afterFirstSave.stateStack =
      [⟨SkMatrix.I, [⟨0, 0, 100, 100⟩], none, none⟩, ⟨SkMatrix.I, [⟨0, 0, 100, 100⟩], none, none⟩] := by
    simp [RectRegion.afterFirstSave, CanvasJNI.save, CanvasContext.api, CanvasContext.save,
      CanvasContext.pushed, CanvasContext.top, RectRegion.fresh, CanvasContext.attach, h3, h4]
  have e2 : RectRegion.afterTranslate.stateStack =
      [⟨SkMatrix.translation 10 10, [⟨0, 0, 100, 100⟩], none, none⟩,
       ⟨SkMatrix.I, [⟨0, 0, 100, 100⟩], none, none⟩] := by
    simp [RectRegion.afterTranslate, CanvasJNI.translate, CanvasContext.api,
      CanvasContext.translate, CanvasContext.concat, modifyTop_stateStack, e1, SkMatrix.mul,
      SkMatrix.I, SkMatrix.translation]
  have e3 : RectRegion.afterSecondSave.stateStack =
      [⟨SkMatrix.I, [⟨0, 0, 100, 100⟩], none, none⟩,
       ⟨SkMatrix.translation 10 10, [⟨0, 0, 100, 100⟩], none, none⟩,
       ⟨SkMatrix.I, [⟨0, 0, 100, 100⟩], none, none⟩] := by
    simp [RectRegion.afterSecondSave, CanvasJNI.save, CanvasContext.api, CanvasContext.save,
      CanvasContext.pushed, CanvasContext.top, e2, h5, h6]
  have hg : ¬ ((2 : Int) < 1 ∨
      (2 : Int) > (CanvasContext.api RectRegion.world).getSaveCount RectRegion.afterSecondSave) := by
    rw [api_getSaveCount, e3]; decide
  have hr : CanvasJNI.restoreToCount (CanvasContext.api RectRegion.world)
      RectRegion.afterSecondSave 2 =
      ⟨CanvasContext.restoreToCount RectRegion.afterSecondSave 2, none⟩ := by
    unfold CanvasJNI.restoreToCount
    rw [if_neg hg]
    rfl
  have e4 : (CanvasContext.restoreToCount RectRegion.afterSecondSave 2).stateStack =
      [⟨SkMatrix.translation 10 10, [⟨0, 0, 100, 100⟩], none, none⟩,
       ⟨SkMatrix.I, [⟨0, 0, 100, 100⟩], none, none⟩] := by
    rw [restoreToCount_stateStack, e3]
    rfl
  have hne : SkMatrix.translation 10 10 ≠ SkMatrix.I := by
    simp [SkMatrix.translation, SkMatrix.I]
  refine ⟨?_, ?_, ?_, ?_, ?_, ?_, ?_, ?_, ?_⟩
  · show ((RectRegion.afterFirstSave.stateStack.length : ℕ) : Int) = 2
    rw [e1]; rfl
  · show ((RectRegion.afterSecondSave.stateStack.length : ℕ) : Int) = 3
    rw [e3]; rfl
  · rw [api_getCTM, e1]; rfl
  · rw [api_getCTM, e3]; rfl
  · rw [hr]
  · rw [hr]
    show (((CanvasContext.restoreToCount RectRegion.afterSecondSave 2).stateStack.length : ℕ) : Int) = 2
    rw [e4]; rfl
  · rw [hr, api_getCTM, e4]; rfl
  · rw [hr, api_getCTM, e4, api_getCTM, e1]; exact hne
  · rw [hr, api_getCTM, e4, api_getCTM, e3]; exact hne

/-- C3, amended: (a) for every canvas and every n with 1 <= n <= save count,
restoreToCount(n) raises nothing and ends with save count n; (b) when a call
of the save family whose flags carry both the matrix and the clip bit pushed a
state on a canvas of save count n, then after any native calls during which
the save count stays above n, restoreToCount(n) ends with the current
transform and the current clip equal to what they were immediately after that
save. -/
theorem C3_restoreToCount_bracket (G : Graphics Region) :
    (∀ (d : CanvasContext Region) (n : Int), 1 ≤ n → n ≤ (CanvasContext.api G).getSaveCount d →
      (CanvasJNI.restoreToCount (CanvasContext.api G) d n).pending = none ∧
      CanvasJNI.getSaveCount (CanvasContext.api G)
        (CanvasJNI.restoreToCount (CanvasContext.api G) d n).canvas = n) ∧
    (∀ (c : CanvasContext Region) (sv : NativeCall) (flags : Int) (calls : List NativeCall),
      1 ≤ (CanvasContext.api G).getSaveCount c →
      sv.saveFlags = some flags →
      hasFlag flags kMatrix_SaveFlag = true →
      hasFlag flags kClip_SaveFlag = true →
      (CanvasContext.api G).getSaveCount (CanvasJNI.invoke (CanvasContext.api G) c sv) =
        (CanvasContext.api G).getSaveCount c + 1 →
      CanvasJNI.staysAbove (CanvasContext.api G) ((CanvasContext.api G).getSaveCount c)
        calls (CanvasJNI.invoke (CanvasContext.api G) c sv) = true →
      CanvasJNI.getCTM (CanvasContext.api G)
          (CanvasJNI.restoreToCount (CanvasContext.api G)
            (CanvasJNI.invokeAll (CanvasContext.api G) calls
              (CanvasJNI.invoke (CanvasContext.api G) c sv))
            ((CanvasContext.api G).getSaveCount c)).canvas =
        CanvasJNI.getCTM (CanvasContext.api G) (CanvasJNI.invoke (CanvasContext.api G) c sv) ∧
      CanvasContext.currentClip G
          (CanvasJNI.restoreToCount (CanvasContext.api G)
            (CanvasJNI.invokeAll (CanvasContext.api G) calls
              (CanvasJNI.invoke (CanvasContext.api G) c sv))
            ((CanvasContext.api G).getSaveCount c)).canvas =
        CanvasContext.currentClip G (CanvasJNI.invoke (CanvasContext.api G) c sv)) := by
  have hcount : ∀ (d : CanvasContext Region) (n : Int), 1 ≤ n →
      n ≤ (CanvasContext.api G).getSaveCount d →
      (CanvasJNI.restoreToCount (CanvasContext.api G) d n).pending = none ∧
      CanvasJNI.getSaveCount (CanvasContext.api G)
        (CanvasJNI.restoreToCount (CanvasContext.api G) d n).canvas = n ∧
      (CanvasJNI.restoreToCount (CanvasContext.api G) d n).canvas.stateStack =
        d.stateStack.drop ((d.stateStack.length : Int) - n).toNat := by
    intro d n h1 h2
    have hg : ¬ (n < 1 ∨ n > (CanvasContext.api G).getSaveCount d) := by omega
    have hr : CanvasJNI.restoreToCount (CanvasContext.api G) d n =
        ⟨CanvasContext.restoreToCount d n, none⟩ := by
      unfold CanvasJNI.restoreToCount
      rw [if_neg hg]
      rfl
    rw [api_getSaveCount] at h2
    rw [hr]
    refine ⟨rfl, ?_, ?_⟩
    · show (((CanvasContext.restoreToCount d n).stateStack.length : ℕ) : Int) = n
      rw [restoreToCount_stateStack, List.length_drop]
      omega
    · show (CanvasContext.restoreToCount d n).stateStack = _
      rw [restoreToCount_stateStack]
  refine ⟨fun d n h1 h2 => ⟨(hcount d n h1 h2).1, (hcount d n h1 h2).2.1⟩, ?_⟩
  intro c sv flags calls hwf hsv hm hc hpush hstay
  obtain ⟨layer, paint, hst⟩ := save_family_top G c sv flags hsv hpush
  rw [api_getSaveCount] at hwf
  have hinv := invokeAll_suffix G c.stateStack calls (CanvasJNI.invoke (CanvasContext.api G) c sv)
    (by rw [hst]; exact List.suffix_cons _ _) (by rw [hst]; simp)
    (by simpa [api_getSaveCount] using hstay)
  have hfin := (hcount (CanvasJNI.invokeAll (CanvasContext.api G) calls
      (CanvasJNI.invoke (CanvasContext.api G) c sv)) ((CanvasContext.api G).getSaveCount c)
    (by rw [api_getSaveCount]; exact hwf)
    (by rw [api_getSaveCount, api_getSaveCount]; exact_mod_cast hinv.2.le)).2.2
  rw [api_getSaveCount] at hfin
  have hbase : (CanvasJNI.restoreToCount (CanvasContext.api G)
      (CanvasJNI.invokeAll (CanvasContext.api G) calls
        (CanvasJNI.invoke (CanvasContext.api G) c sv))
      ((CanvasContext.api G).getSaveCount c)).canvas.stateStack = c.stateStack := by
    rw [api_getSaveCount, hfin]
    have hd := drop_to_suffix hinv.1
    have hk : (((CanvasJNI.invokeAll (CanvasContext.api G) calls
        (CanvasJNI.invoke (CanvasContext.api G) c sv)).stateStack.length : Int) -
        (c.stateStack.length : Int)).toNat =
        (CanvasJNI.invokeAll (CanvasContext.api G) calls
          (CanvasJNI.invoke (CanvasContext.api G) c sv)).stateStack.length -
          c.stateStack.length := by omega
    rw [hk]
    exact hd
  have htop : CanvasContext.top G (CanvasJNI.restoreToCount (CanvasContext.api G)
      (CanvasJNI.invokeAll (CanvasContext.api G) calls
        (CanvasJNI.invoke (CanvasContext.api G) c sv))
      ((CanvasContext.api G).getSaveCount c)).canvas = CanvasContext.top G c := by
    simp only [CanvasContext.top, hbase]
  constructor
  · show CanvasContext.currentTransform G _ = CanvasContext.currentTransform G _
    simp only [CanvasContext.currentTransform, htop]
    simp [CanvasContext.top, hst, CanvasContext.pushed, hm]
  · simp only [CanvasContext.currentClip, htop]
    simp [CanvasContext.top, hst, CanvasContext.pushed, hc]

/-- C3 amended, at a fresh canvas: a save keeping matrix and clip, the calls of
`bracketCalls`, then restoreToCount(1). -/
theorem C3_restoreToCount_bracket_witness :
    (1 ≤ (CanvasContext.api RectRegion.world).getSaveCount RectRegion.fresh ∧
      (NativeCall.save kMatrixClip_SaveFlag).saveFlags = some kMatrixClip_SaveFlag ∧
      hasFlag kMatrixClip_SaveFlag kMatrix_SaveFlag = true ∧
      hasFlag kMatrixClip_SaveFlag kClip_SaveFlag = true ∧
      (CanvasContext.api RectRegion.world).getSaveCount
          (CanvasJNI.invoke (CanvasContext.api RectRegion.world) RectRegion.fresh
            (NativeCall.save kMatrixClip_SaveFlag)) =
        (CanvasContext.api RectRegion.world).getSaveCount RectRegion.fresh + 1 ∧
      CanvasJNI.staysAbove (CanvasContext.api RectRegion.world)
          ((CanvasContext.api RectRegion.world).getSaveCount RectRegion.fresh)
          RectRegion.bracketCalls
          (CanvasJNI.invoke (CanvasContext.api RectRegion.world) RectRegion.fresh
            (NativeCall.save kMatrixClip_SaveFlag)) = true) ∧
    CanvasJNI.getCTM (CanvasContext.api RectRegion.world)
        (CanvasJNI.restoreToCount (CanvasContext.api RectRegion.world)
          (CanvasJNI.invokeAll (CanvasContext.api RectRegion.world) RectRegion.bracketCalls
            (CanvasJNI.invoke (CanvasContext.api RectRegion.world) RectRegion.fresh
              (NativeCall.save kMatrixClip_SaveFlag)))
          ((CanvasContext.api RectRegion.world).getSaveCount RectRegion.fresh)).canvas =
      CanvasJNI.getCTM (CanvasContext.api RectRegion.world)
        (CanvasJNI.invoke (CanvasContext.api RectRegion.world) RectRegion.fresh
          (NativeCall.save kMatrixClip_SaveFlag)) ∧
    CanvasContext.currentClip RectRegion.world
        (CanvasJNI.restoreToCount (CanvasContext.api RectRegion.world)
          (CanvasJNI.invokeAll (CanvasContext.api RectRegion.world) RectRegion.bracketCalls
            (CanvasJNI.invoke (CanvasContext.api RectRegion.world) RectRegion.fresh
              (NativeCall.save kMatrixClip_SaveFlag)))
          ((CanvasContext.api RectRegion.world).getSaveCount RectRegion.fresh)).canvas =
      CanvasContext.currentClip RectRegion.world
        (CanvasJNI.invoke (CanvasContext.api RectRegion.world) RectRegion.fresh
          (NativeCall.save kMatrixClip_SaveFlag)) :=
  ⟨⟨by decide, rfl, by decide, by decide, by decide, by decide⟩,
    (C3_restoreToCount_bracket RectRegion.world).2 RectRegion.fresh
      (NativeCall.save kMatrixClip_SaveFlag) kMatrixClip_SaveFlag RectRegion.bracketCalls
      (by decide) rfl (by decide) (by decide) (by decide) (by decide)⟩

/-- C4: on the state machine, after every sequence of native calls from any
canvas, a save with any flags makes getSaveCount exactly one greater than it
was before the call, and a restore issued at a save count above 1 raises
nothing and makes getSaveCount exactly one smaller. -/
theorem C4_save_restore_count (G : Graphics Region) (c0 : CanvasContext Region)
    (calls : List NativeCall) (flags : Int) :
    CanvasJNI.getSaveCount (CanvasContext.api G)
        (CanvasJNI.save (CanvasContext.api G)
          (CanvasJNI.invokeAll (CanvasContext.api G) calls c0) flags).1 =
      CanvasJNI.getSaveCount (CanvasContext.api G)
        (CanvasJNI.invokeAll (CanvasContext.api G) calls c0) + 1 ∧
    (1 < CanvasJNI.getSaveCount (CanvasContext.api G)
        (CanvasJNI.invokeAll (CanvasContext.api G) calls c0) →
      (CanvasJNI.restore (CanvasContext.api G)
        (CanvasJNI.invokeAll (CanvasContext.api G) calls c0)).pending = none ∧
      CanvasJNI.getSaveCount (CanvasContext.api G)
          (CanvasJNI.restore (CanvasContext.api G)
            (CanvasJNI.invokeAll (CanvasContext.api G) calls c0)).canvas =
        CanvasJNI.getSaveCount (CanvasContext.api G)
          (CanvasJNI.invokeAll (CanvasContext.api G) calls c0) - 1) := by
  refine ⟨save_getSaveCount G _ flags, fun h => ?_⟩
  have hr := restore_getSaveCount G (CanvasJNI.invokeAll (CanvasContext.api G) calls c0) h
  rw [hr.1]
  exact ⟨rfl, hr.2⟩

/-- C4, at the canvas reached from a fresh one by `bracketCalls` after a save
(save count 2). -/
theorem C4_save_restore_count_witness :
    1 < CanvasJNI.getSaveCount (CanvasContext.api RectRegion.world)
      (CanvasJNI.invokeAll (CanvasContext.api RectRegion.world) RectRegion.bracketCalls
        RectRegion.afterFirstSave) ∧
    (CanvasJNI.restore (CanvasContext.api RectRegion.world)
      (CanvasJNI.invokeAll (CanvasContext.api RectRegion.world) RectRegion.bracketCalls
        RectRegion.afterFirstSave)).pending = none ∧
    CanvasJNI.getSaveCount (CanvasContext.api RectRegion.world)
        (CanvasJNI.restore (CanvasContext.api RectRegion.world)
          (CanvasJNI.invokeAll (CanvasContext.api RectRegion.world) RectRegion.bracketCalls
            RectRegion.afterFirstSave)).canvas =
      CanvasJNI.getSaveCount (CanvasContext.api RectRegion.world)
        (CanvasJNI.invokeAll (CanvasContext.api RectRegion.world) RectRegion.bracketCalls
          RectRegion.afterFirstSave) - 1 :=
  ⟨by decide, (C4_save_restore_count RectRegion.world RectRegion.afterFirstSave
    RectRegion.bracketCalls 0).2 (by decide)⟩

/-- C5: on the state machine, starting from a canvas of save count 1, after
every finite sequence of native calls with arbitrary arguments (save,
saveLayer, saveLayerAlpha, restore, restoreToCount, and the matrix and clip
calls as well), failing calls included, the save count is at least 1. -/
theorem C5_base_never_popped (G : Graphics Region) (c0 : CanvasContext Region)
    (h : CanvasJNI.getSaveCount (CanvasContext.api G) c0 = 1) (calls : List NativeCall) :
    1 ≤ CanvasJNI.getSaveCount (CanvasContext.api G)
      (CanvasJNI.invokeAll (CanvasContext.api G) calls c0) := by
  have h0 : 1 ≤ c0.stateStack.length := by
    have : ((c0.stateStack.length : ℕ) : Int) = 1 := h
    omega
  have := invokeAll_length_pos G calls c0 h0
  show (1 : Int) ≤ (((CanvasJNI.invokeAll (CanvasContext.api G) calls c0).stateStack.length : ℕ) : Int)
  omega

/-- C5, at a fresh canvas and the calls of `stressCalls`. -/
theorem C5_base_never_popped_witness :
    CanvasJNI.getSaveCount (CanvasContext.api RectRegion.world) RectRegion.fresh = 1 ∧
    1 ≤ CanvasJNI.getSaveCount (CanvasContext.api RectRegion.world)
      (CanvasJNI.invokeAll (CanvasContext.api RectRegion.world) RectRegion.stressCalls
        RectRegion.fresh) :=
  ⟨by decide, C5_base_never_popped RectRegion.world RectRegion.fresh (by decide)
    RectRegion.stressCalls⟩

/-- C6: on the state machine, for every canvas and every flags value, the
value the binding's save returns is the save count after the push: it equals
getSaveCount called right afterwards, and the save count before plus one. -/
theorem C6_save_returns_new_count (G : Graphics Region) (c : CanvasContext Region)
    (flagsHandle : Int) :
    (CanvasJNI.save (CanvasContext.api G) c flagsHandle).2 =
      CanvasJNI.getSaveCount (CanvasContext.api G)
        (CanvasJNI.save (CanvasContext.api G) c flagsHandle).1 ∧
    (CanvasJNI.save (CanvasContext.api G) c flagsHandle).2 =
      CanvasJNI.getSaveCount (CanvasContext.api G) c + 1 := by
  refine ⟨rfl, ?_⟩
  exact save_getSaveCount G c flagsHandle

/-- C7, as stated, fails: clipping a fresh 100 x 100 canvas to the rectangle
(200, 200, 300, 300) with the intersect operation leaves an empty clip, and
the binding's clipRect returns false. -/
theorem C7_clipRect_counterexample :
    (CanvasJNI.clipRect (CanvasContext.api RectRegion.world) RectRegion.fresh 200 200 300 300
      RectRegion.kIntersect_Op).2 = false ∧
    RectRegion.world.isEmpty (CanvasContext.currentClip RectRegion.world
      (CanvasJNI.clipRect (CanvasContext.api RectRegion.world) RectRegion.fresh 200 200 300 300
        RectRegion.kIntersect_Op).1) = true := by
  have hclip : RectRegion.world.isEmpty (CanvasContext.currentClip RectRegion.world
      RectRegion.emptiedClip) = true := by
    simp only [CanvasContext.currentClip, CanvasContext.top, emptiedClip_stateStack,
      List.headD_cons]
    rfl
  refine ⟨?_, hclip⟩
  show (if RectRegion.world.isEmpty (CanvasContext.currentClip RectRegion.world
      RectRegion.emptiedClip) = true then false else true) = false
  rw [hclip]
  rfl

/-- C7, amended: for every canvas, the boolean returned by the binding's
clipRect, clipPath and clipRegion is the negation of the boolean the canvas's
method returned; on the state machine, for every shape and every op, it is the
negation of the isEmpty flag of the clip after the operation: it is true
exactly when the resulting clip is not empty. -/
theorem C7_clip_returns_nonEmpty (G : Graphics Region) (c : CanvasContext Region)
    (K : CanvasApi σ) (canvas : σ)
    (l t r b : SkScalar) (pathHandle deviceRgnHandle opHandle : Int) :
    (CanvasJNI.clipRect K canvas l t r b opHandle).2 =
      !(K.clipRect canvas l t r b opHandle).2 ∧
    (CanvasJNI.clipPath K canvas pathHandle opHandle).2 =
      !(K.clipPath canvas pathHandle opHandle).2 ∧
    (CanvasJNI.clipRegion K canvas deviceRgnHandle opHandle).2 =
      !(K.clipRegion canvas deviceRgnHandle opHandle).2 ∧
    (CanvasJNI.clipRect (CanvasContext.api G) c l t r b opHandle).2 =
      !G.isEmpty (CanvasContext.currentClip G
        (CanvasJNI.clipRect (CanvasContext.api G) c l t r b opHandle).1) ∧
    (CanvasJNI.clipPath (CanvasContext.api G) c pathHandle opHandle).2 =
      !G.isEmpty (CanvasContext.currentClip G
        (CanvasJNI.clipPath (CanvasContext.api G) c pathHandle opHandle).1) ∧
    (CanvasJNI.clipRegion (CanvasContext.api G) c deviceRgnHandle opHandle).2 =
      !G.isEmpty (CanvasContext.currentClip G
        (CanvasJNI.clipRegion (CanvasContext.api G) c deviceRgnHandle opHandle).1) := by
  have hb : ∀ e : Bool, (if e = true then false else true) = !e := by decide
  have key : ∀ shape : ClipShape,
      (if (CanvasContext.clip G c shape opHandle).2 = true then false else true) =
        !G.isEmpty (CanvasContext.currentClip G (CanvasContext.clip G c shape opHandle).1) := by
    intro shape
    exact hb _
  exact ⟨hb _, hb _, hb _, key _, key _, key _⟩

/-- C8, as stated, fails: for the non-empty clip with bounds
(3/4, 3/4, 41/4, 41/4) the binding writes (1, 1, 10, 10), which lies strictly
inside the fractional bounds on all four sides. -/
theorem C8_getClipBounds_counterexample :
    (CanvasContext.api RectRegion.world).getClipBounds RectRegion.fractionalClip =
      (true, ⟨3 / 4, 3 / 4, 41 / 4, 41 / 4⟩) ∧
    CanvasJNI.getClipBounds (CanvasContext.api RectRegion.world) RectRegion.fractionalClip =
      (⟨1, 1, 10, 10⟩, true) ∧
    ¬ (((CanvasJNI.getClipBounds (CanvasContext.api RectRegion.world)
          RectRegion.fractionalClip).1.fLeft : ℚ) ≤
        ((CanvasContext.api RectRegion.world).getClipBounds RectRegion.fractionalClip).2.fLeft) ∧
    ¬ (((CanvasJNI.getClipBounds (CanvasContext.api RectRegion.world)
          RectRegion.fractionalClip).1.fTop : ℚ) ≤
        ((CanvasContext.api RectRegion.world).getClipBounds RectRegion.fractionalClip).2.fTop) ∧
    ¬ (((CanvasContext.api RectRegion.world).getClipBounds RectRegion.fractionalClip).2.fRight ≤
        ((CanvasJNI.getClipBounds (CanvasContext.api RectRegion.world)
          RectRegion.fractionalClip).1.fRight : ℚ)) ∧
    ¬ (((CanvasContext.api RectRegion.world).getClipBounds RectRegion.fractionalClip).2.fBottom ≤
        ((CanvasJNI.getClipBounds (CanvasContext.api RectRegion.world)
          RectRegion.fractionalClip).1.fBottom : ℚ)) := by
  have hw : CanvasJNI.getClipBounds (CanvasContext.api RectRegion.world)
      RectRegion.fractionalClip = (⟨1, 1, 10, 10⟩, true) := by
    unfold CanvasJNI.getClipBounds
    rw [fractionalClip_bounds]
    simp [SkRect.round, roundToInt_three_quarters, roundToInt_forty_one_quarters]
  rw [hw, fractionalClip_bounds]
  norm_num

/-- C8, amended: for every canvas whose clip is non-empty (the canvas's
getClipBounds returns true and leaves the fractional bounds r) and whose edges,
plus one half, are below 2^24 in magnitude, the binding returns true and writes
the rectangle r.round.  Each written edge is the floor of the float sum
edge + 0.5f: it is the floor of (edge + 1/2) or that floor plus one, so it lies
strictly between edge - 1/2 and edge + 3/2, and it is at most 2^24 in
magnitude, inside the range of a 32-bit int.  Whenever the float sum is exact,
the written edge is the floor of (edge + 1/2) and is within one half of the
edge. -/
theorem C8_getClipBounds_rounds_nearest (K : CanvasApi σ) (canvas : σ) (r : SkRect)
    (h : K.getClipBounds canvas = (true, r))
    (hl : |r.fLeft + 1 / 2| < 16777216) (ht : |r.fTop + 1 / 2| < 16777216)
    (hr : |r.fRight + 1 / 2| < 16777216) (hb : |r.fBottom + 1 / 2| < 16777216) :
    (CanvasJNI.getClipBounds K canvas).2 = true ∧
    (CanvasJNI.getClipBounds K canvas).1 = r.round ∧
    (⌊r.fLeft + 1 / 2⌋ ≤ (CanvasJNI.getClipBounds K canvas).1.fLeft ∧
      (CanvasJNI.getClipBounds K canvas).1.fLeft ≤ ⌊r.fLeft + 1 / 2⌋ + 1 ∧
      r.fLeft - 1 / 2 < ((CanvasJNI.getClipBounds K canvas).1.fLeft : ℚ) ∧
      ((CanvasJNI.getClipBounds K canvas).1.fLeft : ℚ) < r.fLeft + 3 / 2 ∧
      |((CanvasJNI.getClipBounds K canvas).1.fLeft : ℚ)| ≤ 16777216 ∧
      (roundToFloat (r.fLeft + 1 / 2) = r.fLeft + 1 / 2 →
        (CanvasJNI.getClipBounds K canvas).1.fLeft = ⌊r.fLeft + 1 / 2⌋ ∧
        |((CanvasJNI.getClipBounds K canvas).1.fLeft : ℚ) - r.fLeft| ≤ 1 / 2)) ∧
    (⌊r.fTop + 1 / 2⌋ ≤ (CanvasJNI.getClipBounds K canvas).1.fTop ∧
      (CanvasJNI.getClipBounds K canvas).1.fTop ≤ ⌊r.fTop + 1 / 2⌋ + 1 ∧
      r.fTop - 1 / 2 < ((CanvasJNI.getClipBounds K canvas).1.fTop : ℚ) ∧
      ((CanvasJNI.getClipBounds K canvas).1.fTop : ℚ) < r.fTop + 3 / 2 ∧
      |((CanvasJNI.getClipBounds K canvas).1.fTop : ℚ)| ≤ 16777216 ∧
      (roundToFloat (r.fTop + 1 / 2) = r.fTop + 1 / 2 →
        (CanvasJNI.getClipBounds K canvas).1.fTop = ⌊r.fTop + 1 / 2⌋ ∧
        |((CanvasJNI.getClipBounds K canvas).1.fTop : ℚ) - r.fTop| ≤ 1 / 2)) ∧
    (⌊r.fRight + 1 / 2⌋ ≤ (CanvasJNI.getClipBounds K canvas).1.fRight ∧
      (CanvasJNI.getClipBounds K canvas).1.fRight ≤ ⌊r.fRight + 1 / 2⌋ + 1 ∧
      r.fRight - 1 / 2 < ((CanvasJNI.getClipBounds K canvas).1.fRight : ℚ) ∧
      ((CanvasJNI.getClipBounds K canvas).1.fRight : ℚ) < r.fRight + 3 / 2 ∧
      |((CanvasJNI.getClipBounds K canvas).1.fRight : ℚ)| ≤ 16777216 ∧
      (roundToFloat (r.fRight + 1 / 2) = r.fRight + 1 / 2 →
        (CanvasJNI.getClipBounds K canvas).1.fRight = ⌊r.fRight + 1 / 2⌋ ∧
        |((CanvasJNI.getClipBounds K canvas).1.fRight : ℚ) - r.fRight| ≤ 1 / 2)) ∧
    (⌊r.fBottom + 1 / 2⌋ ≤ (CanvasJNI.getClipBounds K canvas).1.fBottom ∧
      (CanvasJNI.getClipBounds K canvas).1.fBottom ≤ ⌊r.fBottom + 1 / 2⌋ + 1 ∧
      r.fBottom - 1 / 2 < ((CanvasJNI.getClipBounds K canvas).1.fBottom : ℚ) ∧
      ((CanvasJNI.getClipBounds K canvas).1.fBottom : ℚ) < r.fBottom + 3 / 2 ∧
      |((CanvasJNI.getClipBounds K canvas).1.fBottom : ℚ)| ≤ 16777216 ∧
      (roundToFloat (r.fBottom + 1 / 2) = r.fBottom + 1 / 2 →
        (CanvasJNI.getClipBounds K canvas).1.fBottom = ⌊r.fBottom + 1 / 2⌋ ∧
        |((CanvasJNI.getClipBounds K canvas).1.fBottom : ℚ) - r.fBottom| ≤ 1 / 2)) := by
  have hw : CanvasJNI.getClipBounds K canvas = (r.round, true) := by
    simp [CanvasJNI.getClipBounds, h]
  rw [hw]
  exact ⟨rfl, rfl, roundToInt_bounds _ hl, roundToInt_bounds _ ht, roundToInt_bounds _ hr,
    roundToInt_bounds _ hb⟩

/-- C8 amended, at the clip with bounds (3/4, 3/4, 41/4, 41/4): the four edges
are in range, the binding returns true, and the written left edge lies strictly
between 3/4 - 1/2 and 3/4 + 3/2. -/
theorem C8_getClipBounds_rounds_nearest_witness :
    (CanvasContext.api RectRegion.world).getClipBounds RectRegion.fractionalClip =
      (true, ⟨3 / 4, 3 / 4, 41 / 4, 41 / 4⟩) ∧
    |(3 / 4 : ℚ) + 1 / 2| < 16777216 ∧ |(41 / 4 : ℚ) + 1 / 2| < 16777216 ∧
    (CanvasJNI.getClipBounds (CanvasContext.api RectRegion.world)
      RectRegion.fractionalClip).2 = true ∧
    (3 / 4 : ℚ) - 1 / 2 < ((CanvasJNI.getClipBounds (CanvasContext.api RectRegion.world)
      RectRegion.fractionalClip).1.fLeft : ℚ) ∧
    ((CanvasJNI.getClipBounds (CanvasContext.api RectRegion.world)
      RectRegion.fractionalClip).1.fLeft : ℚ) < 3 / 4 + 3 / 2 :=
  have h34 : |(3 / 4 : ℚ) + 1 / 2| < 16777216 := by norm_num [abs_lt]
  have h414 : |(41 / 4 : ℚ) + 1 / 2| < 16777216 := by norm_num [abs_lt]
  ⟨fractionalClip_bounds, h34, h414,
    (C8_getClipBounds_rounds_nearest (CanvasContext.api RectRegion.world)
      RectRegion.fractionalClip ⟨3 / 4, 3 / 4, 41 / 4, 41 / 4⟩ fractionalClip_bounds
      h34 h34 h414 h414).1,
    (C8_getClipBounds_rounds_nearest (CanvasContext.api RectRegion.world)
      RectRegion.fractionalClip ⟨3 / 4, 3 / 4, 41 / 4, 41 / 4⟩ fractionalClip_bounds
      h34 h34 h414 h414).2.2.1.2.2.1,
    (C8_getClipBounds_rounds_nearest (CanvasContext.api RectRegion.world)
      RectRegion.fractionalClip ⟨3 / 4, 3 / 4, 41 / 4, 41 / 4⟩ fractionalClip_bounds
      h34 h34 h414 h414).2.2.1.2.2.2.1⟩

/-- C9: the binding's getClipBounds returns exactly the boolean the canvas's
getClipBounds returned, which on the state machine is true exactly when the
current clip is not empty; and for every canvas, whatever rectangle the canvas
left in the bounds, a false result comes with the rectangle (0, 0, 0, 0)
written to the caller. -/
theorem C9_getClipBounds_result (G : Graphics Region) (c : CanvasContext Region)
    (K : CanvasApi σ) (canvas : σ) :
    ((CanvasJNI.getClipBounds (CanvasContext.api G) c).2 = true ↔
      G.isEmpty (CanvasContext.currentClip G c) = false) ∧
    (CanvasJNI.getClipBounds K canvas).2 = (K.getClipBounds canvas).1 ∧
    ((CanvasJNI.getClipBounds K canvas).2 = false →
      (CanvasJNI.getClipBounds K canvas).1 = ⟨0, 0, 0, 0⟩) := by
  have hres : ∀ (τ : Type) (L : CanvasApi τ) (x : τ),
      (CanvasJNI.getClipBounds L x).2 = (L.getClipBounds x).1 := by
    intro τ L x
    show (if (L.getClipBounds x).1 = true then true else false) = _
    cases (L.getClipBounds x).1 <;> rfl
  refine ⟨?_, hres σ K canvas, ?_⟩
  · rw [hres]
    show (!G.isEmpty (CanvasContext.currentClip G c)) = true ↔ _
    cases G.isEmpty (CanvasContext.currentClip G c) <;> simp
  · intro hf
    rw [hres] at hf
    have h0 : SkScalarRoundToInt 0 = 0 := roundToInt_zero
    simp [CanvasJNI.getClipBounds, hf, SkRect.setEmpty, SkRect.round, h0]

/-- C9, at the canvas whose clip was emptied. -/
theorem C9_getClipBounds_result_witness :
    (CanvasJNI.getClipBounds (CanvasContext.api RectRegion.world) RectRegion.emptiedClip).2 =
      false ∧
    (CanvasJNI.getClipBounds (CanvasContext.api RectRegion.world) RectRegion.emptiedClip).1 =
      ⟨0, 0, 0, 0⟩ :=
  have hf : (CanvasJNI.getClipBounds (CanvasContext.api RectRegion.world)
      RectRegion.emptiedClip).2 = false := by
    rw [(C9_getClipBounds_result RectRegion.world RectRegion.emptiedClip
      (CanvasContext.api RectRegion.world) RectRegion.emptiedClip).2.1, emptiedClip_bounds]
  ⟨hf, (C9_getClipBounds_result RectRegion.world RectRegion.emptiedClip
    (CanvasContext.api RectRegion.world) RectRegion.emptiedClip).2.2 hf⟩

/-- C10: on the state machine, for every canvas with a non-empty stack and
every matrix M, setMatrix with a handle to M followed by getCTM writes exactly
M: the result depends on nothing else in the canvas. -/
theorem C10_setMatrix_getCTM (G : Graphics Region) (c : CanvasContext Region)
    (h : 1 ≤ CanvasJNI.getSaveCount (CanvasContext.api G) c) (M : SkMatrix) :
    CanvasJNI.getCTM (CanvasContext.api G)
      (CanvasJNI.setMatrix (CanvasContext.api G) c (some M)) = M := by
  have h0 : ((c.stateStack.length : ℕ) : Int) ≥ 1 := h
  rw [api_getCTM]
  show ((CanvasContext.modifyTop _ c).stateStack.headD _).transform = M
  rw [modifyTop_stateStack]
  cases hs : c.stateStack with
  | nil => simp [hs] at h0
  | cons s rest => rfl

/-- C10, at the canvas translated inside a save, with a scaling matrix. -/
theorem C10_setMatrix_getCTM_witness :
    1 ≤ CanvasJNI.getSaveCount (CanvasContext.api RectRegion.world) RectRegion.afterTranslate ∧
    CanvasJNI.getCTM (CanvasContext.api RectRegion.world)
      (CanvasJNI.setMatrix (CanvasContext.api RectRegion.world) RectRegion.afterTranslate
        (some (SkMatrix.scaling 2 3))) = SkMatrix.scaling 2 3 :=
  ⟨by decide, C10_setMatrix_getCTM RectRegion.world RectRegion.afterTranslate (by decide)
    (SkMatrix.scaling 2 3)⟩

/-- C11, as stated, fails: with screen density 0 and bitmap density 160 (they
differ) and canvas density 160, drawBitmap hands the canvas the caller's paint
as it is, with its filter level still 0; so does drawBitmapRect with screen
density 0. -/
theorem C11_filter_counterexample :
    CanvasJNI.drawBitmap recorder [] 7 0 0 (some ⟨255, kSrcOver_Mode, 0⟩) 160 0 160 =
      [CanvasCall.drawBitmap 7 0 0 (some ⟨255, kSrcOver_Mode, 0⟩)] ∧
    CanvasJNI.drawBitmapRect recorder [] 7 0 0 10 10 0 0 20 20 (some ⟨255, kSrcOver_Mode, 0⟩)
        0 160 =
      [CanvasCall.drawBitmapRect 7 ⟨0, 0, 10, 10⟩ ⟨0, 0, 20, 20⟩
        (some ⟨255, kSrcOver_Mode, 0⟩)] ∧
    (0 : Int) ≠ 160 ∧
    (⟨255, kSrcOver_Mode, 0⟩ : SkPaint).filterLevel ≠ kLow_FilterLevel := by
  decide

/-- C11, amended: the filtering paint is a copy of the caller's paint, or of a
default paint for a null handle, with the filter level low.  drawBitmapRect
hands it to the canvas exactly when the screen density is non-zero and differs
from the bitmap density; drawBitmap hands it exactly then on its unscaled
path, and always on its density-scaling path; in every other case the caller's
paint handle is handed over as it is. -/
theorem C11_filtered_paint (log : List CanvasCall) (bitmap : Int) (left top : SkScalar)
    (sl st sr sb dl dt dr db : SkScalar) (paint : Option SkPaint) (p : SkPaint)
    (cd sd bd : Int) :
    CanvasJNI.filteredPaint (some p) = { p with filterLevel := kLow_FilterLevel } ∧
    CanvasJNI.filteredPaint none = { SkPaint.defaultPaint with filterLevel := kLow_FilterLevel } ∧
    (sd ≠ 0 ∧ sd ≠ bd →
      CanvasJNI.drawBitmapRect recorder log bitmap sl st sr sb dl dt dr db paint sd bd =
        log ++ [CanvasCall.drawBitmapRect bitmap ⟨sl, st, sr, sb⟩ ⟨dl, dt, dr, db⟩
          (some (CanvasJNI.filteredPaint paint))]) ∧
    (¬ (sd ≠ 0 ∧ sd ≠ bd) →
      CanvasJNI.drawBitmapRect recorder log bitmap sl st sr sb dl dt dr db paint sd bd =
        log ++ [CanvasCall.drawBitmapRect bitmap ⟨sl, st, sr, sb⟩ ⟨dl, dt, dr, db⟩ paint]) ∧
    ((cd = bd ∨ cd = 0 ∨ bd = 0) → (sd ≠ 0 ∧ sd ≠ bd) →
      CanvasJNI.drawBitmap recorder log bitmap left top paint cd sd bd =
        log ++ [CanvasCall.drawBitmap bitmap left top (some (CanvasJNI.filteredPaint paint))]) ∧
    ((cd = bd ∨ cd = 0 ∨ bd = 0) → ¬ (sd ≠ 0 ∧ sd ≠ bd) →
      CanvasJNI.drawBitmap recorder log bitmap left top paint cd sd bd =
        log ++ [CanvasCall.drawBitmap bitmap left top paint]) ∧
    (¬ (cd = bd ∨ cd = 0 ∨ bd = 0) →
      CanvasJNI.drawBitmap recorder log bitmap left top paint cd sd bd =
        log ++ [CanvasCall.save kMatrixClip_SaveFlag, CanvasCall.translate left top,
          CanvasCall.scale (densityScale cd bd) (densityScale cd bd),
          CanvasCall.drawBitmap bitmap 0 0 (some (CanvasJNI.filteredPaint paint)),
          CanvasCall.restore]) := by
  refine ⟨rfl, rfl, ?_, ?_, ?_, ?_, ?_⟩
  · intro h; rw [drawBitmapRect_recorded, if_pos h]
  · intro h; rw [drawBitmapRect_recorded, if_neg h]
  · intro h1 h2; rw [drawBitmap_recorded, if_pos h1, if_pos h2]
  · intro h1 h2; rw [drawBitmap_recorded, if_pos h1, if_neg h2]
  · intro h1; rw [drawBitmap_recorded, if_neg h1]

/-- C11 amended, at screen density 240 and bitmap density 160 with a null
paint handle: the canvas is handed a default paint with the filter level
low. -/
theorem C11_filtered_paint_witness :
    ((240 : Int) ≠ 0 ∧ (240 : Int) ≠ 160) ∧
    CanvasJNI.drawBitmapRect recorder [] 7 0 0 10 10 0 0 20 20 none 240 160 =
      [] ++ [CanvasCall.drawBitmapRect 7 ⟨0, 0, 10, 10⟩ ⟨0, 0, 20, 20⟩
        (some (CanvasJNI.filteredPaint none))] :=
  ⟨by decide,
    (C11_filtered_paint [] 7 0 0 0 0 10 10 0 0 20 20 none SkPaint.defaultPaint 160 240 160).2.2.1
      (by decide)⟩

/-- C12: on its density-scaling path drawBitmap hands the canvas exactly one
save (matrix and clip), a translate, a scale, the draw and one restore, in
that order; on its other paths it hands the canvas the draw alone; and on the
state machine the stack after drawBitmap is the stack before it, so the save
count, the current transform and the current clip are unchanged. -/
theorem C12_drawBitmap_bracket {Region : Type} (G : Graphics Region) (c : CanvasContext Region)
    (log : List CanvasCall) (bitmap : Int) (left top : SkScalar) (paint : Option SkPaint)
    (cd sd bd : Int) :
    (¬ (cd = bd ∨ cd = 0 ∨ bd = 0) →
      CanvasJNI.drawBitmap recorder log bitmap left top paint cd sd bd =
        log ++ [CanvasCall.save kMatrixClip_SaveFlag, CanvasCall.translate left top,
          CanvasCall.scale (densityScale cd bd) (densityScale cd bd),
          CanvasCall.drawBitmap bitmap 0 0 (some (CanvasJNI.filteredPaint paint)),
          CanvasCall.restore]) ∧
    ((cd = bd ∨ cd = 0 ∨ bd = 0) →
      ∃ handed, CanvasJNI.drawBitmap recorder log bitmap left top paint cd sd bd =
        log ++ [CanvasCall.drawBitmap bitmap left top handed]) ∧
    (CanvasJNI.drawBitmap (CanvasContext.drawApi G) c bitmap left top paint cd sd bd).stateStack =
      c.stateStack ∧
    CanvasJNI.getSaveCount (CanvasContext.api G)
        (CanvasJNI.drawBitmap (CanvasContext.drawApi G) c bitmap left top paint cd sd bd) =
      CanvasJNI.getSaveCount (CanvasContext.api G) c ∧
    CanvasJNI.getCTM (CanvasContext.api G)
        (CanvasJNI.drawBitmap (CanvasContext.drawApi G) c bitmap left top paint cd sd bd) =
      CanvasJNI.getCTM (CanvasContext.api G) c ∧
    CanvasContext.currentClip G
        (CanvasJNI.drawBitmap (CanvasContext.drawApi G) c bitmap left top paint cd sd bd) =
      CanvasContext.currentClip G c := by
  have hs := drawBitmap_stateStack G c bitmap left top paint cd sd bd
  refine ⟨?_, ?_, hs, ?_, ?_, ?_⟩
  · intro h; rw [drawBitmap_recorded, if_neg h]
  · intro h; exact ⟨_, by rw [drawBitmap_recorded, if_pos h]⟩
  · show (((CanvasJNI.drawBitmap (CanvasContext.drawApi G) c bitmap left top paint
      cd sd bd).stateStack.length : ℕ) : Int) = ((c.stateStack.length : ℕ) : Int)
    rw [hs]
  · rw [api_getCTM, api_getCTM, hs]
  · simp only [CanvasContext.currentClip, CanvasContext.top, hs]

/-- C12, on the canvas translated inside a save, with canvas density 240 and
bitmap density 160 (the scaling path). -/
theorem C12_drawBitmap_bracket_witness :
    ¬ ((240 : Int) = 160 ∨ (240 : Int) = 0 ∨ (160 : Int) = 0) ∧
    CanvasJNI.drawBitmap recorder [] 7 5 6 none 240 0 160 =
      [] ++ [CanvasCall.save kMatrixClip_SaveFlag, CanvasCall.translate 5 6,
        CanvasCall.scale (densityScale 240 160) (densityScale 240 160),
        CanvasCall.drawBitmap 7 0 0 (some (CanvasJNI.filteredPaint none)),
        CanvasCall.restore] ∧
    CanvasJNI.getCTM (CanvasContext.api RectRegion.world)
        (CanvasJNI.drawBitmap (CanvasContext.drawApi RectRegion.world) RectRegion.afterTranslate
          7 5 6 none 240 0 160) =
      CanvasJNI.getCTM (CanvasContext.api RectRegion.world) RectRegion.afterTranslate :=
  ⟨by decide,
    (C12_drawBitmap_bracket RectRegion.world RectRegion.afterTranslate [] 7 5 6 none
      240 0 160).1 (by decide),
    (C12_drawBitmap_bracket RectRegion.world RectRegion.afterTranslate [] 7 5 6 none
      240 0 160).2.2.2.2.1⟩

/-- C13, at the failing input: for an array of 4 floats, offset 2147483647 and
count 1 (both non-negative, their sum 2147483648 far beyond the length), the
32-bit sum wraps to -2147483648, the guard passes, nothing is raised, and
drawPoints and drawLines hand the canvas the pointer 2147483647 elements past
the start of the array, although the mathematical bound fails. -/
theorem C13_drawPoints_overflow :
    (CanvasJNI.drawPoints recorder [] (some [0, 0, 0, 0]) 2147483647 1
        ⟨255, kSrcOver_Mode, 0⟩).pending = none ∧
    (CanvasJNI.drawPoints recorder [] (some [0, 0, 0, 0]) 2147483647 1
        ⟨255, kSrcOver_Mode, 0⟩).canvas =
      [CanvasCall.drawPoints ⟨some [0, 0, 0, 0], 2147483647⟩ 1 ⟨255, kSrcOver_Mode, 0⟩] ∧
    (CanvasJNI.drawLines recorder [] (some [0, 0, 0, 0]) 2147483647 1
        ⟨255, kSrcOver_Mode, 0⟩).pending = none ∧
    (CanvasJNI.drawLines recorder [] (some [0, 0, 0, 0]) 2147483647 1
        ⟨255, kSrcOver_Mode, 0⟩).canvas =
      [CanvasCall.drawLines ⟨some [0, 0, 0, 0], 2147483647⟩ 1 ⟨255, kSrcOver_Mode, 0⟩] ∧
    wrap32 (2147483647 + 1) = -2147483648 ∧
    ¬ ((2147483647 : Int) + 1 ≤ (([0, 0, 0, 0] : List SkScalar).length : Int)) := by
  decide

/-- C14, at the failing input: with vertIndex 0 and texIndex 2, drawVertices
hands the canvas the texture coordinates starting at element 0 of texs (the
vertex index), not at element 2; vertices, colors and indices start at their
own index. -/
theorem C14_drawVertices_texs_offset :
    CanvasJNI.drawVertices recorder [] 0 3 (some [0, 0, 1, 0, 0, 1]) 0
        (some [9, 9, 0, 0, 1, 0, 0, 1]) 2 (some [1, 2, 3, 4]) 1 (some [5, 0, 1, 2]) 1 3
        ⟨255, kSrcOver_Mode, 0⟩ =
      [CanvasCall.drawVertices 0 3 ⟨some [0, 0, 1, 0, 0, 1], 0⟩
        ⟨some [9, 9, 0, 0, 1, 0, 0, 1], 0⟩ (some ⟨some [1, 2, 3, 4], 1⟩)
        (some ⟨some [5, 0, 1, 2], 1⟩) 3 ⟨255, kSrcOver_Mode, 0⟩] ∧
    (⟨some [9, 9, 0, 0, 1, 0, 0, 1], 0⟩ : ArrayPtr SkScalar) ≠
      ⟨some [9, 9, 0, 0, 1, 0, 0, 1], 2⟩ := by
  decide

/-- C15, as stated, fails: for canvas density 33554433 and bitmap density
33554434 (different, both non-zero) drawBitmap takes its scaling path, both
integers convert to the float 33554432, and the scale factor handed to the
canvas is exactly 1. -/
theorem C15_scale_counterexample :
    ¬ ((33554433 : Int) = 33554434 ∨ (33554433 : Int) = 0 ∨ (33554434 : Int) = 0) ∧
    roundToFloat ((33554433 : Int) : ℚ) = 33554432 ∧
    roundToFloat ((33554434 : Int) : ℚ) = 33554432 ∧
    densityScale 33554433 33554434 = 1 ∧
    CanvasJNI.drawBitmap recorder [] 7 0 0 none 33554433 0 33554434 =
      [CanvasCall.save kMatrixClip_SaveFlag, CanvasCall.translate 0 0, CanvasCall.scale 1 1,
        CanvasCall.drawBitmap 7 0 0 (some (CanvasJNI.filteredPaint none)), CanvasCall.restore] := by
  refine ⟨by decide, ?_, ?_, densityScale_33554433_33554434, ?_⟩
  · rw [show ((33554433 : Int) : ℚ) = 33554433 by norm_num]; exact roundToFloat_33554433
  · rw [show ((33554434 : Int) : ℚ) = 33554434 by norm_num]; exact roundToFloat_33554434
  · rw [drawBitmap_recorded, if_neg (by decide), densityScale_33554433_33554434]
    rfl

/-- C15, amended: for all integer densities drawBitmap takes its scaling path
(save, translate(left, top), scale, draw at (0, 0), restore) exactly when
canvasDensity != bitmapDensity and both are non-zero; on that path the float
divisor is not zero and the scale factor is never 0; it is never 1 when both
densities are below 2^24 = 16777216 in magnitude, the range in which an
integer converts to float exactly. -/
theorem C15_scaling_path (log : List CanvasCall) (bitmap : Int) (left top : SkScalar)
    (paint : Option SkPaint) (cd sd bd : Int) :
    ((cd ≠ bd ∧ cd ≠ 0 ∧ bd ≠ 0) →
      CanvasJNI.drawBitmap recorder log bitmap left top paint cd sd bd =
        log ++ [CanvasCall.save kMatrixClip_SaveFlag, CanvasCall.translate left top,
          CanvasCall.scale (densityScale cd bd) (densityScale cd bd),
          CanvasCall.drawBitmap bitmap 0 0 (some (CanvasJNI.filteredPaint paint)),
          CanvasCall.restore]) ∧
    (¬ (cd ≠ bd ∧ cd ≠ 0 ∧ bd ≠ 0) →
      ∃ handed, CanvasJNI.drawBitmap recorder log bitmap left top paint cd sd bd =
        log ++ [CanvasCall.drawBitmap bitmap left top handed]) ∧
    ((cd ≠ bd ∧ cd ≠ 0 ∧ bd ≠ 0) →
      roundToFloat (bd : ℚ) ≠ 0 ∧ densityScale cd bd ≠ 0) ∧
    ((cd ≠ bd ∧ cd ≠ 0 ∧ bd ≠ 0) → |cd| < 16777216 → |bd| < 16777216 →
      densityScale cd bd ≠ 1) := by
  refine ⟨?_, ?_, ?_, ?_⟩
  · intro h
    rw [drawBitmap_recorded, if_neg (by tauto)]
  · intro h
    exact ⟨_, by rw [drawBitmap_recorded, if_pos (by tauto)]⟩
  · intro h
    exact densityScale_ne_zero cd bd h.2.1 h.2.2
  · intro h hc hb
    exact densityScale_ne_one cd bd h.2.2 h.1 hc hb

/-- C15 amended, at canvas density 240 and bitmap density 160. -/
theorem C15_scaling_path_witness :
    ((240 : Int) ≠ 160 ∧ (240 : Int) ≠ 0 ∧ (160 : Int) ≠ 0) ∧
    |(240 : Int)| < 16777216 ∧ |(160 : Int)| < 16777216 ∧
    (roundToFloat ((160 : Int) : ℚ) ≠ 0 ∧ densityScale 240 160 ≠ 0) ∧
    densityScale 240 160 ≠ 1 :=
  ⟨by decide, by decide, by decide,
    (C15_scaling_path [] 7 0 0 none 240 0 160).2.2.1 (by decide),
    (C15_scaling_path [] 7 0 0 none 240 0 160).2.2.2 (by decide) (by decide) (by decide)⟩

/-- C16, at the failing input: for the char array "abcd" with index 2 and
count 1, drawTextChars hands the canvas the text pointer 2 bytes past the
start of the array, with start 0 and count = contextCount = 1; the code unit
there is array[1] = 'b' (98), not array[2] = 'c' (99).  drawTextString (start
2, end 3), drawTextRunChars (context index 2) and drawTextRunString (context
start 2) hand over the same pointer. -/
theorem C16_text_pointer_bytes :
    CanvasJNI.drawTextChars recorder [] [97, 98, 99, 100] 2 1 0 0 0 ⟨255, kSrcOver_Mode, 0⟩ 0 =
      [CanvasCall.drawText ⟨[97, 98, 99, 100], 2⟩ 0 1 1 0 0 0 ⟨255, kSrcOver_Mode, 0⟩ 0] ∧
    CanvasJNI.drawTextString recorder [] [97, 98, 99, 100] 2 3 0 0 0
        ⟨255, kSrcOver_Mode, 0⟩ 0 =
      [CanvasCall.drawText ⟨[97, 98, 99, 100], 2⟩ 0 1 1 0 0 0 ⟨255, kSrcOver_Mode, 0⟩ 0] ∧
    CanvasJNI.drawTextRunChars recorder [] [97, 98, 99, 100] 2 1 2 2 0 0 false
        ⟨255, kSrcOver_Mode, 0⟩ 0 =
      [CanvasCall.drawText ⟨[97, 98, 99, 100], 2⟩ 0 1 2 0 0 kBidi_Force_LTR
        ⟨255, kSrcOver_Mode, 0⟩ 0] ∧
    CanvasJNI.drawTextRunString recorder [] [97, 98, 99, 100] 2 3 2 4 0 0 false
        ⟨255, kSrcOver_Mode, 0⟩ 0 =
      [CanvasCall.drawText ⟨[97, 98, 99, 100], 2⟩ 0 1 2 0 0 kBidi_Force_LTR
        ⟨255, kSrcOver_Mode, 0⟩ 0] ∧
    (⟨[97, 98, 99, 100], 2⟩ : TextPtr).codeUnits 1 = some [98] ∧
    (([97, 98, 99, 100] : List Nat).drop 2).take 1 = [99] := by
  decide

end Claims

end android
